import Mathlib

/-!
Shallow embedding of the Incredible-API-Cookbook example scripts.

The scripts call a hosted chat-completion endpoint over HTTP and run a
"function calling" round-trip loop: the model answers either with plain
text or with a structured function-call request; the script dispatches
to a local function and resubmits the result.  We model Python values as
an inductive type `PyVal`, the remote endpoint as an oracle mapping the
submitted message list to an HTTP outcome, and each script's control
flow as a Lean function over those.  Local domain functions (calendar,
stocks, ...) are arbitrary side-effecting callables supplied by the
embedding application; they are modelled as parameters of type
`String → PyVal → Except String PyVal` (`.error` models a raised
exception, carrying `str(e)`).
-/

/-- A Python value as used by these scripts (JSON-shaped data).
Dictionaries are association lists with string keys; the scripts only
ever use string keys.  Floats never occur in the modelled code paths. -/
inductive PyVal where
  | none
  | bool (b : Bool)
  | int (n : Int)
  | str (s : String)
  | list (xs : List PyVal)
  | dict (entries : List (String × PyVal))
deriving Repr

namespace PyVal

mutual

/-- Python `==` on the modelled values (structural equality). -/
def beq : PyVal → PyVal → Bool
  | .none, .none => true
  | .bool a, .bool b => a == b
  | .int a, .int b => a == b
  | .str a, .str b => a == b
  | .list xs, .list ys => beqList xs ys
  | .dict xs, .dict ys => beqEntries xs ys
  | _, _ => false

/-- Elementwise equality of Python lists. -/
def beqList : List PyVal → List PyVal → Bool
  | [], [] => true
  | x :: xs, y :: ys => beq x y && beqList xs ys
  | _, _ => false

/-- Pairwise equality of dict entry lists. -/
def beqEntries : List (String × PyVal) → List (String × PyVal) → Bool
  | [], [] => true
  | (k, v) :: xs, (l, w) :: ys => k == l && beq v w && beqEntries xs ys
  | _, _ => false

end

/-- `v == s` for a Python string literal `s`: true only when `v` is that
string.  Comparisons with other types are `False` in Python. -/
def isStrEq (v : PyVal) (s : String) : Bool :=
  match v with
  | .str t => t == s
  | _ => false

/-- `isinstance(v, dict)`. -/
def isDict : PyVal → Bool
  | .dict _ => true
  | _ => false

/-- `isinstance(v, str)`. -/
def isStr : PyVal → Bool
  | .str _ => true
  | _ => false

/-- `isinstance(v, list)`. -/
def isList : PyVal → Bool
  | .list _ => true
  | _ => false

/-- Python truthiness (`if v:`). -/
def truthy : PyVal → Bool
  | .none => false
  | .bool b => b
  | .int n => n != 0
  | .str s => s != ""
  | .list xs => !xs.isEmpty
  | .dict es => !es.isEmpty

/-- `'key' in v` for a dict `v` (key membership).  Only used on values
already known to be dicts. -/
def hasKey (v : PyVal) (k : String) : Bool :=
  match v with
  | .dict es => es.any (fun e => e.fst == k)
  | _ => false

/-- Dictionary lookup, first binding wins (Python dicts have unique keys). -/
def lookup (v : PyVal) (k : String) : Option PyVal :=
  match v with
  | .dict es => es.lookup k
  | _ => Option.none

/-- `v.get(k)` on a dict: the value, or `None` when absent; raises
(`AttributeError`) on non-dicts. -/
def pyGet (v : PyVal) (k : String) : Except String PyVal :=
  match v with
  | .dict es =>
    match es.lookup k with
    | some w => .ok w
    | Option.none => .ok .none
  | _ => .error ("AttributeError: get on non-dict " ++ k)

/-- `v[k]` string subscript: dict lookup raising `KeyError` when absent,
`TypeError` on non-dicts. -/
def sub (v : PyVal) (k : String) : Except String PyVal :=
  match v with
  | .dict es =>
    match es.lookup k with
    | some w => .ok w
    | Option.none => .error ("KeyError: " ++ k)
  | _ => .error ("TypeError: subscript on non-dict " ++ k)

/-- `v[0]` integer subscript at position 0: list or string indexing;
`KeyError` on dicts (all modelled dicts have string keys), `TypeError`
otherwise. -/
def sub0 (v : PyVal) : Except String PyVal :=
  match v with
  | .list (x :: _) => .ok x
  | .list [] => .error "IndexError: list index out of range"
  | .str s =>
    match s.data with
    | c :: _ => .ok (.str (String.singleton c))
    | [] => .error "IndexError: string index out of range"
  | .dict _ => .error "KeyError: 0"
  | _ => .error "TypeError: object is not subscriptable"

/-- `len(v)`; raises `TypeError` on values without a length. -/
def pyLen (v : PyVal) : Except String Nat :=
  match v with
  | .str s => .ok s.length
  | .list xs => .ok xs.length
  | .dict es => .ok es.length
  | _ => .error "TypeError: object has no len"

end PyVal

mutual

/-- Python `repr` of a value, as produced inside `str()` of containers.
`str` of builtins is external library behaviour; we model the default
single-quoted rendering (the modelled inputs contain no quote or escape
characters). -/
def pyRepr : PyVal → String
  | .none => "None"
  | .bool true => "True"
  | .bool false => "False"
  | .int n => toString n
  | .str s => "\x27" ++ s ++ "\x27"
  | .list xs => "[" ++ String.intercalate ", " (pyReprList xs) ++ "]"
  | .dict es => "\x7b" ++ String.intercalate ", " (pyReprEntries es) ++ "\x7d"

/-- `repr` of each element of a list. -/
def pyReprList : List PyVal → List String
  | [] => []
  | x :: xs => pyRepr x :: pyReprList xs

/-- `repr` of each `key: value` entry of a dict. -/
def pyReprEntries : List (String × PyVal) → List String
  | [] => []
  | (k, v) :: es => ("\x27" ++ k ++ "\x27: " ++ pyRepr v) :: pyReprEntries es

end

/-- Python `str(v)`: the string itself for strings, `repr`-style
rendering otherwise. -/
def pyStr (v : PyVal) : String :=
  match v with
  | .str s => s
  | _ => pyRepr v

/-- `parse_api_response` from `01-getting-started/2_streaming_chat.py`
(lines 26-61): duck-typed extraction of the assistant text from the
possible response shapes, with `str()` fallbacks.  The Python function
returns whatever value sits in the `content` field (not necessarily a
string); branches that return `str(...)` are modelled as `.str`. -/
def parse_api_response (result : PyVal) : PyVal :=
  if ¬ result.isDict then
    .str (pyStr result)
  else if result.hasKey "result" then
    let inner_result := (result.lookup "result").getD .none
    if inner_result.isStr then
      inner_result
    else if inner_result.isDict && inner_result.hasKey "response" then
      let response_array := (inner_result.lookup "response").getD .none
      match response_array with
      | .list (first_message :: _) =>
        if first_message.isDict && first_message.hasKey "content" then
          (first_message.lookup "content").getD .none
        else
          .str (pyStr inner_result)
      | _ => .str (pyStr inner_result)
    else
      .str (pyStr inner_result)
  else if result.hasKey "response" then
    let response_array := (result.lookup "response").getD .none
    match response_array with
    | .list (first_message :: _) =>
      if first_message.isDict && first_message.hasKey "content" then
        (first_message.lookup "content").getD .none
      else
        .str (pyStr response_array)
    | _ => .str (pyStr response_array)
  else
    .str (pyStr result)

/-- `pat in s` for Python strings: substring containment. -/
def strContains (s pat : String) : Bool :=
  (s.splitOn pat).length != 1

/-! ## Server-Sent-Events stream model

`response.iter_lines()` yields raw lines.  JSON parsing of a payload is
the external `json` library; a payload is therefore classified by what
`json.loads` would do with it.  The literal sentinel line `data: [DONE]`
has a payload that strips to `[DONE]` and is not valid JSON; it gets its
own constructor since `4_streaming_chat.py` tests it before parsing. -/
inductive SSELine where
  /-- An empty line (falsy in `if line:`, and not a `data: ` line). -/
  | blank
  /-- A non-empty line that does not start with `data: `. -/
  | noData (s : String)
  /-- The line `data: [DONE]` (payload strips to `[DONE]`, not valid JSON). -/
  | rawDone
  /-- A `data: ` line whose payload is not valid JSON (and not the raw sentinel). -/
  | badJson (s : String)
  /-- A `data: ` line whose payload parses as the JSON value `v`. -/
  | jsonLine (v : PyVal)
deriving Repr

/-- Per-chunk extraction of `get_streaming_response`
(`01-getting-started/4_streaming_chat.py` lines 106-111): the text is
taken only from the nested shape `chunk_data["content"]["content"]`.
`.error` models an uncaught exception: `'content' in chunk_data` raises
`TypeError` on non-iterables, and `full_response += chunk_text` raises
when the extracted value is truthy but not a string. -/
def streamChunkText4 (chunk_data : PyVal) : Except String (Option String) :=
  match chunk_data with
  | .dict es =>
    if (PyVal.dict es).hasKey "content" then
      let inner := ((PyVal.dict es).lookup "content").getD .none
      if inner.isDict then
        if inner.hasKey "content" then
          let chunk_text := (inner.lookup "content").getD .none
          if chunk_text.truthy then
            match chunk_text with
            | .str s => .ok (some s)
            | _ => .error "TypeError: can only concatenate str"
          else .ok Option.none
        else .ok Option.none
      else .ok Option.none
    else .ok Option.none
  | .list xs =>
    if xs.any (fun x => x.beq (.str "content")) then
      .error "TypeError: list indices must be integers"
    else .ok Option.none
  | .str s =>
    if strContains s "content" then
      .error "TypeError: string indices must be integers"
    else .ok Option.none
  | _ => .error "TypeError: argument is not iterable"

/-- The streaming loop of `get_streaming_response`
(`01-getting-started/4_streaming_chat.py` lines 86-115): skip non-data
lines, break on the raw `[DONE]` sentinel before parsing, skip invalid
JSON (`json.JSONDecodeError` → `continue`), and accumulate extracted
chunk text. -/
def streamLoop4 : List SSELine → String → Except String String
  | [], full_response => .ok full_response
  | l :: ls, full_response =>
    match l with
    | .blank => streamLoop4 ls full_response
    | .noData _ => streamLoop4 ls full_response
    | .rawDone => .ok full_response
    | .badJson _ => streamLoop4 ls full_response
    | .jsonLine v =>
      match streamChunkText4 v with
      | .error e => .error e
      | .ok Option.none => streamLoop4 ls full_response
      | .ok (some s) => streamLoop4 ls (full_response ++ s)

/-- `get_streaming_response` on a delivered line sequence (the HTTP
setup and transport are external; the argument is what
`response.iter_lines()` yields). -/
def get_streaming_response (lines : List SSELine) : Except String String :=
  streamLoop4 lines ""

/-- What `streaming_chat_example` does with one parsed JSON chunk
(`01-getting-started/2_streaming_chat.py` lines 117-141): stop on a
`content` field equal to `"[DONE]"`, emit the nested tagged content
when it is a truthy string, emit a plain string content, skip anything
else.  This consumer is total. -/
inductive StreamStep where
  | stop
  | skip
  | emit (s : String)
deriving Repr

/-- Chunk handling of `streaming_chat_example` (see `StreamStep`). -/
def streamChunkText2 (chunk_data : PyVal) : StreamStep :=
  if chunk_data.isDict && chunk_data.hasKey "content" then
    let inner_content := (chunk_data.lookup "content").getD .none
    if inner_content.isStrEq "[DONE]" then .stop
    else if inner_content.isDict then
      let actual_content := (inner_content.lookup "content").getD (.str "")
      if actual_content.truthy && actual_content.isStr then
        match actual_content with
        | .str s => .emit s
        | _ => .skip
      else .skip
    else
      match inner_content with
      | .str s => .emit s
      | _ => .skip
  else .skip

/-- The streaming loop of `streaming_chat_example`
(`01-getting-started/2_streaming_chat.py` lines 111-145): skip lines
without the `data: ` marker, skip invalid JSON — including the raw
`data: [DONE]` line, whose payload does not parse — and stop only on a
parsed chunk whose `content` equals `"[DONE]"`. -/
def streamLoop2 : List SSELine → String → String
  | [], full_response => full_response
  | l :: ls, full_response =>
    match l with
    | .blank => streamLoop2 ls full_response
    | .noData _ => streamLoop2 ls full_response
    | .rawDone => streamLoop2 ls full_response
    | .badJson _ => streamLoop2 ls full_response
    | .jsonLine v =>
      match streamChunkText2 v with
      | .stop => full_response
      | .skip => streamLoop2 ls full_response
      | .emit s => streamLoop2 ls (full_response ++ s)

/-- `streaming_chat_example` on a delivered line sequence. -/
def streaming_chat_example (lines : List SSELine) : String :=
  streamLoop2 lines ""

/-- A content fragment delivered on a `data: ` line in the tagged wire
shape both consumers parse:
`{"content": {"type": "text_chunk", "content": s}}`. -/
def fragLine (s : String) : SSELine :=
  .jsonLine (.dict [("content", .dict [("type", .str "text_chunk"), ("content", .str s)])])

/-- The `[DONE]` sentinel in the JSON wire shape recognised by
`streaming_chat_example`: `{"content": "[DONE]"}`. -/
def doneLine2 : SSELine :=
  .jsonLine (.dict [("content", .str "[DONE]")])

/-! ## Transport and remote-endpoint model

`requests.post` either raises (network error) or yields a response with
a status code and a body; `response.json()` may itself fail.  The remote
endpoint is opaque, so a run is parameterised by an oracle mapping the
submitted message list (the rest of the request is constant) to the
outcome.  Local domain functions are likewise parameters: a
`LocalImpl` maps a function name and the raw `input` value to either a
return value or a raised exception (`.error`, carrying `str(e)`). -/
inductive HttpResult where
  /-- `requests.post` raised (network failure). -/
  | raised (msg : String)
  /-- A response arrived: status code, and what `response.json()` yields
  (`.error` when the body is not valid JSON). -/
  | resp (statusCode : Nat) (body : Except String PyVal)

/-- The remote completion endpoint, as a function of the submitted
`messages` list. -/
def Oracle : Type := List PyVal → HttpResult

/-- A supply of local domain functions (`check_calendar_availability`,
`get_stock_data`, ...): arbitrary side-effecting callables. -/
def LocalImpl : Type := String → PyVal → Except String PyVal

/-- The opening `{"role": "user", "content": q}` message. -/
def userMsg (q : String) : PyVal :=
  .dict [("role", .str "user"), ("content", .str q)]

/-- The function-result message the scripts build:
`{"type": "function_call_result", "function_call_id": id,
"function_call_results": results}`. -/
def resultMsg (function_call_id : PyVal) (results : List PyVal) : PyVal :=
  .dict [("type", .str "function_call_result"),
         ("function_call_id", function_call_id),
         ("function_call_results", .list results)]

/-- `if assistant_message: history.append(assistant_message)` — the
optional assistant message as a list segment. -/
def optList : Option PyVal → List PyVal
  | some m => [m]
  | Option.none => []

/-- `for x in v`: the sequence of iterates (list elements, string
characters, dict keys); `TypeError` otherwise. -/
def pyIterList (v : PyVal) : Except String (List PyVal) :=
  match v with
  | .list xs => .ok xs
  | .str s => .ok (s.toList.map fun c => .str (String.singleton c))
  | .dict es => .ok (es.map fun e => .str e.fst)
  | _ => .error "TypeError: object is not iterable"

/-- `result["result"]["response"]` followed by `for item in ...`:
extract the response items, with subscript errors and non-iterable
bodies modelled as raised exceptions. -/
def responseItems (result : PyVal) : Except String (List PyVal) := do
  let r ← result.sub "result"
  let resp ← r.sub "response"
  pyIterList resp

/-- The response-item scan shared by the function-calling scripts:
`for item in response_items: if item.get('type') == 'function_call':
function_call_item = item; elif item.get('role') == 'assistant':
assistant_message = item`.  Later matches overwrite earlier ones.
`.get` on a non-dict raises. -/
def scanItems : List PyVal → Option PyVal × Option PyVal →
    Except String (Option PyVal × Option PyVal)
  | [], st => .ok st
  | item :: rest, (function_call_item, assistant_message) =>
    match item.pyGet "type" with
    | .error e => .error e
    | .ok t =>
      if t.isStrEq "function_call" then
        scanItems rest (some item, assistant_message)
      else
        match item.pyGet "role" with
        | .error e => .error e
        | .ok r =>
          if r.isStrEq "assistant" then
            scanItems rest (function_call_item, some item)
          else
            scanItems rest (function_call_item, assistant_message)

/-- `execute_workflow_function` from
`02-function-calling/4_advanced_workflow.py` lines 223-241: dispatch on
the function name inside a `try`; an unknown name yields
`{"error": "Unknown function: <name>"}` without calling anything, and a
raised exception is captured as
`{"error": "Function execution failed: <str(e)>"}`. -/
def execute_workflow_function (impl : LocalImpl) (function_name arguments : PyVal) : PyVal :=
  let body : Except String PyVal :=
    if function_name.isStrEq "check_calendar_availability" then
      impl "check_calendar_availability" arguments
    else if function_name.isStrEq "create_calendar_event" then
      impl "create_calendar_event" arguments
    else if function_name.isStrEq "send_meeting_invitation" then
      impl "send_meeting_invitation" arguments
    else if function_name.isStrEq "create_follow_up_tasks" then
      impl "create_follow_up_tasks" arguments
    else if function_name.isStrEq "log_workflow_completion" then
      impl "log_workflow_completion" arguments
    else
      .ok (.dict [("error", .str ("Unknown function: " ++ pyStr function_name))])
  match body with
  | .ok v => v
  | .error e => .dict [("error", .str ("Function execution failed: " ++ e))]

/-- Why the `run_advanced_workflow` loop stopped. -/
inductive RunOutcome where
  /-- `break` after dispatching `log_workflow_completion`. -/
  | workflowCompleted
  /-- `break` because the assistant text contains `complete`/`finished`. -/
  | completedByText (content : PyVal)
  /-- `break`: no function call and no assistant message in the response. -/
  | noResponse
  /-- `break` on `response.status_code != 200`. -/
  | apiError (code : Nat)
  /-- `break` from `except Exception` (network error, bad body shape, ...). -/
  | stepException (msg : String)
  /-- The `while step_count < max_steps` condition became false. -/
  | maxStepsReached
deriving Repr

/-- Observable state of one orchestrator run: the conversation history,
the `step_count` counter, every message list submitted to the endpoint
(in order), and every `(name, input)` pair passed to the dispatcher. -/
structure OrchSt where
  history : List PyVal
  stepCount : Nat
  submitted : List (List PyVal)
  dispatched : List (PyVal × PyVal)
  /-- For each function-result message the script built: the raw
  `function_calls` value it answers, and the `function_call_results`
  list it carries. -/
  callRounds : List (PyVal × List PyVal)
deriving Repr

/-- Final state plus the reason the loop stopped. -/
structure OrchResult where
  final : OrchSt
  outcome : RunOutcome
deriving Repr

/-- The `while step_count < max_steps` loop of `run_advanced_workflow`
(`02-function-calling/4_advanced_workflow.py` lines 282-375), with the
remaining iteration allowance as explicit fuel (`fuel = max_steps -
step_count`, so fuel `0` is exactly the exit by the loop condition).
Each iteration increments `step_count`, submits the history, and either
dispatches the first invocation of a function-call response (appending
the assistant message when present, the function-call item, and a
one-result function-result message), records a plain assistant answer,
or breaks on errors, on `log_workflow_completion`, or on assistant text
containing `complete`/`finished`. -/
def advLoop (oracle : Oracle) (impl : LocalImpl) : Nat → OrchSt → OrchResult
  | 0, s => ⟨s, .maxStepsReached⟩
  | fuel + 1, s =>
    let s := { s with stepCount := s.stepCount + 1,
                      submitted := s.submitted ++ [s.history] }
    match oracle s.history with
    | .raised msg => ⟨s, .stepException msg⟩
    | .resp code body =>
      if code ≠ 200 then ⟨s, .apiError code⟩
      else
        match body with
        | .error e => ⟨s, .stepException e⟩
        | .ok result =>
          match responseItems result with
          | .error e => ⟨s, .stepException e⟩
          | .ok items =>
            match scanItems items (Option.none, Option.none) with
            | .error e => ⟨s, .stepException e⟩
            | .ok (some function_call_item, assistant_message) =>
              match (do
                  let fcid ← function_call_item.sub "function_call_id"
                  let fcs ← function_call_item.sub "function_calls"
                  let n ← fcs.pyLen
                  pure (fcid, fcs, n) : Except String (PyVal × PyVal × Nat)) with
              | .error e => ⟨s, .stepException e⟩
              | .ok (function_call_id, function_calls, n) =>
                if n > 0 then
                  match (do
                      let fc ← function_calls.sub0
                      let name ← fc.sub "name"
                      let input ← fc.sub "input"
                      pure (name, input) : Except String (PyVal × PyVal)) with
                  | .error e => ⟨s, .stepException e⟩
                  | .ok (function_name, function_input) =>
                    let function_result :=
                      execute_workflow_function impl function_name function_input
                    let s := { s with
                      dispatched := s.dispatched ++ [(function_name, function_input)],
                      callRounds := s.callRounds ++ [(function_calls, [function_result])],
                      history := s.history
                        ++ optList assistant_message
                        ++ [function_call_item,
                            resultMsg function_call_id [function_result]] }
                    if function_name.isStrEq "log_workflow_completion" then
                      ⟨s, .workflowCompleted⟩
                    else
                      advLoop oracle impl fuel s
                else
                  advLoop oracle impl fuel s
            | .ok (Option.none, some assistant_message) =>
              match assistant_message.sub "content" with
              | .error e => ⟨s, .stepException e⟩
              | .ok ai_response =>
                let s := { s with history := s.history ++ [assistant_message] }
                match ai_response with
                | .str txt =>
                  if strContains txt.toLower "complete" || strContains txt.toLower "finished" then
                    ⟨s, .completedByText ai_response⟩
                  else
                    advLoop oracle impl fuel s
                | _ => ⟨s, .stepException "AttributeError: lower on non-str"⟩
            | .ok (Option.none, Option.none) => ⟨s, .noResponse⟩

/-- The initial orchestrator state:
`conversation_history = [{"role": "user", "content": workflow_request}]`,
`step_count = 0`. -/
def advInit (workflow_request : String) : OrchSt :=
  ⟨[userMsg workflow_request], 0, [], [], []⟩

/-- `max_steps = 10  # Prevent infinite loops`
(`4_advanced_workflow.py` line 279; `7_content_creator.py` line 413 uses
the same bound for its `max_iterations`). -/
def max_steps : Nat := 10

/-- `run_advanced_workflow(workflow_request)`: run the loop with the
hard-coded step budget. -/
def run_advanced_workflow (oracle : Oracle) (impl : LocalImpl)
    (workflow_request : String) : OrchResult :=
  advLoop oracle impl max_steps (advInit workflow_request)

/-! ## The two-phase single-call scripts -/

/-- Observable record of a single script run: every message list
submitted to the endpoint, every `(name, input)` passed to a local
callable, the `(function_calls, function_call_results)` of each
function-result message built, and the script-specific outcome. -/
structure ScriptResult (O : Type) where
  submitted : List (List PyVal)
  dispatched : List (PyVal × PyVal)
  callRounds : List (PyVal × List PyVal)
  outcome : O
deriving Repr

/-- Python integers as used by `+` (booleans count as their int value). -/
def pyNum : PyVal → Option Int
  | .int n => some n
  | .bool b => some (if b then 1 else 0)
  | _ => Option.none

/-- Python `a + b` on the modelled values: numeric addition, string and
list concatenation; `TypeError` otherwise. -/
def pyAdd (a b : PyVal) : Except String PyVal :=
  match pyNum a, pyNum b with
  | some x, some y => .ok (.int (x + y))
  | _, _ =>
    match a, b with
    | .str x, .str y => .ok (.str (x ++ y))
    | .list x, .list y => .ok (.list (x ++ y))
    | _, _ => .error "TypeError: unsupported operand types for +"

/-- `calculate_sum(a, b)` from `02-function-calling/1_simple_calculator.py`
lines 29-39: `result = a + b`. -/
def calculate_sum (a b : PyVal) : Except String PyVal :=
  pyAdd a b

/-- `add_numbers(a, b)` from `01-getting-started/5_function_calling.py`
lines 27-31: `result = a + b`. -/
def add_numbers (a b : PyVal) : Except String PyVal :=
  pyAdd a b

/-- `get_current_weather(city)` from
`01-getting-started/5_function_calling.py` lines 33-45: a lookup table
with an f-string fallback (`weather_data.get(city, ...)`; unhashable
arguments raise). -/
def get_current_weather (city : PyVal) : Except String PyVal :=
  match city with
  | .list _ => .error "TypeError: unhashable type"
  | .dict _ => .error "TypeError: unhashable type"
  | _ =>
    if city.beq (.str "New York") then .ok (.str "Sunny, 72°F")
    else if city.beq (.str "London") then .ok (.str "Cloudy, 60°F")
    else if city.beq (.str "Tokyo") then .ok (.str "Rainy, 68°F")
    else if city.beq (.str "Paris") then .ok (.str "Partly cloudy, 65°F")
    else .ok (.str ("Weather data not available for " ++ pyStr city))

/-- `KeyError` discrimination on the modelled exception strings: the
calculator script catches `KeyError` (and network/JSON errors) but lets
`TypeError`/`AttributeError` propagate. -/
def isKeyError (e : String) : Bool :=
  "KeyError".isPrefixOf e

/-- First `role == 'assistant'` item's `content`, as in the final
response scans (`for item in items: if item.get('role') == 'assistant':
... item['content'] ... break`). -/
def findFirstAssistant : List PyVal → Except String (Option PyVal)
  | [] => .ok Option.none
  | item :: rest =>
    match item.pyGet "role" with
    | .error e => .error e
    | .ok r =>
      if r.isStrEq "assistant" then
        match item.sub "content" with
        | .error e => .error e
        | .ok c => .ok (some c)
      else
        findFirstAssistant rest

/-- How `simple_calculator_example` ends. -/
inductive CalcOutcome where
  /-- `response.status_code != 200` on the first request. -/
  | apiError (code : Nat)
  /-- One of the `except` clauses fired (network error, `KeyError`,
  `json.JSONDecodeError`). -/
  | caughtError (msg : String)
  /-- An exception none of the `except` clauses covers escapes. -/
  | uncaught (msg : String)
  /-- `print("❌ Unknown function: ..."); return` — the run aborts. -/
  | unknownFunctionAbort (name : PyVal)
  /-- The function-call item carried an empty `function_calls` list;
  the body of `if len(function_calls) > 0` is skipped and the function
  falls through to its end. -/
  | emptyCallsEnd
  /-- Full two-request round trip; carries the final assistant content
  when one was found. -/
  | completedOk (finalContent : Option PyVal)
  /-- `final_response.status_code != 200` on the second request. -/
  | finalApiError (code : Nat)
  /-- No function call: the direct assistant response (or none found). -/
  | directResponse (content : Option PyVal)
deriving Repr

/-- `simple_calculator_example` from
`02-function-calling/1_simple_calculator.py` lines 62-212: one request;
if the model answers with a function call, dispatch `calculate_sum` on
the first invocation, rebuild the message history with the call and a
one-element result list, and send it back.  Exceptions are caught by
`except requests.exceptions.RequestException / KeyError /
json.JSONDecodeError`; anything else propagates. -/
def simple_calculator_example (oracle : Oracle) : ScriptResult CalcOutcome :=
  let user_question := "What is 127 + 349?"
  let t1 := [userMsg user_question]
  let abort : String → CalcOutcome := fun e =>
    if isKeyError e then .caughtError e else .uncaught e
  match oracle t1 with
  | .raised msg => ⟨[t1], [], [], .caughtError msg⟩
  | .resp code body =>
    if code ≠ 200 then ⟨[t1], [], [], .apiError code⟩
    else
      match body with
      | .error e => ⟨[t1], [], [], .caughtError e⟩
      | .ok result =>
        match (do
            let items ← responseItems result
            scanItems items (Option.none, Option.none)) with
        | .error e => ⟨[t1], [], [], abort e⟩
        | .ok (some function_call_item, assistant_message) =>
          match (do
              let fcid ← function_call_item.sub "function_call_id"
              let fcs ← function_call_item.sub "function_calls"
              let n ← fcs.pyLen
              pure (fcid, fcs, n) : Except String (PyVal × PyVal × Nat)) with
          | .error e => ⟨[t1], [], [], abort e⟩
          | .ok (function_call_id, function_calls, n) =>
            if n > 0 then
              match (do
                  let fc ← function_calls.sub0
                  let name ← fc.sub "name"
                  let input ← fc.sub "input"
                  pure (name, input) : Except String (PyVal × PyVal)) with
              | .error e => ⟨[t1], [], [], abort e⟩
              | .ok (function_name, function_input) =>
                if function_name.isStrEq "calculate_sum" then
                  match (do
                      let a ← function_input.sub "a"
                      let b ← function_input.sub "b"
                      calculate_sum a b : Except String PyVal) with
                  | .error e => ⟨[t1], [], [], abort e⟩
                  | .ok function_result =>
                    let t2 := t1
                      ++ optList assistant_message
                      ++ [function_call_item,
                          resultMsg function_call_id [function_result]]
                    let disp := [(function_name, function_input)]
                    let rounds := [(function_calls, [function_result])]
                    match oracle t2 with
                    | .raised msg => ⟨[t1, t2], disp, rounds, .caughtError msg⟩
                    | .resp code2 body2 =>
                      if code2 = 200 then
                        match body2 with
                        | .error e => ⟨[t1, t2], disp, rounds, .caughtError e⟩
                        | .ok final_result =>
                          match (do
                              let items ← responseItems final_result
                              findFirstAssistant items) with
                          | .error e => ⟨[t1, t2], disp, rounds, abort e⟩
                          | .ok c => ⟨[t1, t2], disp, rounds, .completedOk c⟩
                      else ⟨[t1, t2], disp, rounds, .finalApiError code2⟩
                else ⟨[t1], [], [], .unknownFunctionAbort function_name⟩
            else ⟨[t1], [], [], .emptyCallsEnd⟩
        | .ok (Option.none, assistant_message) =>
          match assistant_message with
          | some m =>
            match m.sub "content" with
            | .error e => ⟨[t1], [], [], abort e⟩
            | .ok c => ⟨[t1], [], [], .directResponse (some c)⟩
          | Option.none => ⟨[t1], [], [], .directResponse Option.none⟩

/-- How `test_multiple_tools` ends. -/
inductive MTOutcome where
  /-- `response.status_code != 200` on the first request. -/
  | apiError (code : Nat)
  /-- The single `except Exception` clause fired. -/
  | exn (msg : String)
  /-- `print(f"❌ Unknown function: ..."); return` — the run aborts,
  sending nothing back to the model. -/
  | unknownFunctionAbort (name : PyVal)
  /-- The function-call item carried an empty `function_calls` list. -/
  | emptyCallsEnd
  /-- Full two-request round trip. -/
  | completedOk (finalContent : Option PyVal)
  /-- `final_response.status_code != 200` on the second request. -/
  | finalApiError (code : Nat)
  /-- No function call: the direct assistant response (or none found). -/
  | directResponse (content : Option PyVal)
deriving Repr

/-- `test_multiple_tools(question)` from
`02-function-calling/2_multiple_tools.py` lines 162-299: one request
with three declared tools; on a function-call response, extract the
first invocation's schema arguments and dispatch the named local
callable, then resubmit with a one-element result list.  The whole body
sits in a single `try ... except Exception`; an unknown function name
prints an error and returns without dispatching or replying. -/
def test_multiple_tools (oracle : Oracle) (impl : LocalImpl)
    (question : String) : ScriptResult MTOutcome :=
  let t1 := [userMsg question]
  match oracle t1 with
  | .raised msg => ⟨[t1], [], [], .exn msg⟩
  | .resp code body =>
    if code ≠ 200 then ⟨[t1], [], [], .apiError code⟩
    else
      match body with
      | .error e => ⟨[t1], [], [], .exn e⟩
      | .ok result =>
        match (do
            let items ← responseItems result
            scanItems items (Option.none, Option.none)) with
        | .error e => ⟨[t1], [], [], .exn e⟩
        | .ok (some function_call_item, assistant_message) =>
          match (do
              let fcid ← function_call_item.sub "function_call_id"
              let fcs ← function_call_item.sub "function_calls"
              let n ← fcs.pyLen
              pure (fcid, fcs, n) : Except String (PyVal × PyVal × Nat)) with
          | .error e => ⟨[t1], [], [], .exn e⟩
          | .ok (function_call_id, function_calls, n) =>
            if n > 0 then
              match (do
                  let fc ← function_calls.sub0
                  let name ← fc.sub "name"
                  let input ← fc.sub "input"
                  pure (name, input) : Except String (PyVal × PyVal)) with
              | .error e => ⟨[t1], [], [], .exn e⟩
              | .ok (function_name, function_input) =>
                -- dispatch: extract the schema arguments, then call the
                -- named local callable (a parameter) on the raw input
                let dispatchRes : Except String PyVal :=
                  if function_name.isStrEq "calculate_operation" then do
                    let _ ← function_input.sub "operation"
                    let _ ← function_input.sub "a"
                    let _ ← function_input.sub "b"
                    impl "calculate_operation" function_input
                  else if function_name.isStrEq "get_weather_info" then do
                    let _ ← function_input.sub "city"
                    impl "get_weather_info" function_input
                  else if function_name.isStrEq "get_current_time" then do
                    let _ ← function_input.pyGet "timezone"
                    impl "get_current_time" function_input
                  else
                    .error "unknown"
                if function_name.isStrEq "calculate_operation"
                    || function_name.isStrEq "get_weather_info"
                    || function_name.isStrEq "get_current_time" then
                  match dispatchRes with
                  | .error e => ⟨[t1], [], [], .exn e⟩
                  | .ok function_result =>
                    let t2 := t1
                      ++ optList assistant_message
                      ++ [function_call_item,
                          resultMsg function_call_id [function_result]]
                    let disp := [(function_name, function_input)]
                    let rounds := [(function_calls, [function_result])]
                    match oracle t2 with
                    | .raised msg => ⟨[t1, t2], disp, rounds, .exn msg⟩
                    | .resp code2 body2 =>
                      if code2 = 200 then
                        match body2 with
                        | .error e => ⟨[t1, t2], disp, rounds, .exn e⟩
                        | .ok final_result =>
                          match (do
                              let items ← responseItems final_result
                              findFirstAssistant items) with
                          | .error e => ⟨[t1, t2], disp, rounds, .exn e⟩
                          | .ok c => ⟨[t1, t2], disp, rounds, .completedOk c⟩
                      else ⟨[t1, t2], disp, rounds, .finalApiError code2⟩
                else ⟨[t1], [], [], .unknownFunctionAbort function_name⟩
            else ⟨[t1], [], [], .emptyCallsEnd⟩
        | .ok (Option.none, assistant_message) =>
          match assistant_message with
          | some m =>
            match m.sub "content" with
            | .error e => ⟨[t1], [], [], .exn e⟩
            | .ok c => ⟨[t1], [], [], .directResponse (some c)⟩
          | Option.none => ⟨[t1], [], [], .directResponse Option.none⟩

/-- How `call_ai_with_functions` ends. -/
inductive FCOutcome where
  /-- `except requests.exceptions.RequestException`: print, `return None`. -/
  | requestError (msg : String)
  /-- Any other exception escapes the function. -/
  | uncaught (msg : String)
  /-- No `function_call` key: return the assistant content directly. -/
  | answered (content : PyVal)
  /-- Function round trip done: return the final assistant content. -/
  | answeredAfterFunction (content : PyVal)
deriving Repr

/-- `'needle' in v` for the membership tests of the legacy script
(`key in dict`, element in list, substring in string; `TypeError`
otherwise). -/
def pyIn (needle : String) (v : PyVal) : Except String Bool :=
  match v with
  | .dict _ => .ok (v.hasKey needle)
  | .list xs => .ok (xs.any fun x => x.beq (.str needle))
  | .str s => .ok (strContains s needle)
  | _ => .error "TypeError: argument is not iterable"

/-- `call_ai_with_functions(message)` from
`01-getting-started/5_function_calling.py` lines 74-146 (the legacy
response shape): look at `result['result']['response'][0]`; if it has a
`function_call` key, parse its JSON `arguments` string (`json.loads` is
the external library, passed as `jsonParse`), dispatch `add_numbers` or
`get_current_weather` (unknown names become the plain string
`"Unknown function"`), extend the messages with the legacy
assistant/function pair and request again.  Only
`requests.exceptions.RequestException` is caught. -/
def call_ai_with_functions (oracle : Oracle)
    (jsonParse : String → Except String PyVal)
    (message : String) : ScriptResult FCOutcome :=
  let t1 := [userMsg message]
  match oracle t1 with
  | .raised msg => ⟨[t1], [], [], .requestError msg⟩
  | .resp code body =>
    -- `response.raise_for_status()` raises `HTTPError` (a
    -- `RequestException`) for 4xx/5xx codes
    if 400 ≤ code then ⟨[t1], [], [], .requestError ("HTTPError: " ++ toString code)⟩
    else
      match body with
      | .error e => ⟨[t1], [], [], .uncaught e⟩
      | .ok result =>
        match (do
            let r ← result.sub "result"
            let resp ← r.sub "response"
            let ai_response ← resp.sub0
            let hasFC ← pyIn "function_call" ai_response
            pure (ai_response, hasFC) : Except String (PyVal × Bool)) with
        | .error e => ⟨[t1], [], [], .uncaught e⟩
        | .ok (ai_response, hasFC) =>
          if hasFC then
            match (do
                let function_call ← ai_response.sub "function_call"
                let function_name ← function_call.sub "name"
                let argsRaw ← function_call.sub "arguments"
                let function_args ←
                  match argsRaw with
                  | .str s => jsonParse s
                  | _ => .error "TypeError: the JSON object must be str"
                pure (function_call, function_name, function_args) :
                  Except String (PyVal × PyVal × PyVal)) with
            | .error e => ⟨[t1], [], [], .uncaught e⟩
            | .ok (function_call, function_name, function_args) =>
              let dispatchRes : Except String (PyVal × List (PyVal × PyVal)) :=
                if function_name.isStrEq "add_numbers" then do
                  let a ← function_args.sub "a"
                  let b ← function_args.sub "b"
                  let r ← add_numbers a b
                  pure (r, [(function_name, function_args)])
                else if function_name.isStrEq "get_current_weather" then do
                  let city ← function_args.sub "city"
                  let r ← get_current_weather city
                  pure (r, [(function_name, function_args)])
                else
                  pure (.str "Unknown function", [])
              match dispatchRes with
              | .error e => ⟨[t1], [], [], .uncaught e⟩
              | .ok (function_result, disp) =>
                let t2 := t1 ++
                  [.dict [("role", .str "assistant"), ("content", .none),
                          ("function_call", function_call)],
                   .dict [("role", .str "function"), ("name", function_name),
                          ("content", .str (pyStr function_result))]]
                match oracle t2 with
                | .raised msg => ⟨[t1, t2], disp, [], .requestError msg⟩
                | .resp _ body2 =>
                  -- no `raise_for_status` on the second request
                  match body2 with
                  | .error e => ⟨[t1, t2], disp, [], .uncaught e⟩
                  | .ok result2 =>
                    match (do
                        let r ← result2.sub "result"
                        let resp ← r.sub "response"
                        let first ← resp.sub0
                        first.sub "content" : Except String PyVal) with
                    | .error e => ⟨[t1, t2], disp, [], .uncaught e⟩
                    | .ok c => ⟨[t1, t2], disp, [], .answeredAfterFunction c⟩
          else
            match ai_response.sub "content" with
            | .error e => ⟨[t1], [], [], .uncaught e⟩
            | .ok c => ⟨[t1], [], [], .answered c⟩

/-- How `analyze_stock_with_ai` ends. -/
inductive StockOutcome where
  /-- `except requests.exceptions.RequestException` fired. -/
  | requestError (msg : String)
  /-- `except Exception` fired — this is where a raised local function
  lands, aborting the whole run. -/
  | unexpectedError (msg : String)
  /-- The post-function assistant analysis was returned. -/
  | analysis (content : PyVal)
  /-- No function call: the initial assistant response was returned. -/
  | directResponse (content : PyVal)
  /-- The function fell through and returned `None`. -/
  | noneReturned
deriving Repr

/-- `str(name)` coercion used when forwarding a (necessarily string)
matched function name to its implementation. -/
def strOrEmpty : PyVal → String
  | .str s => s
  | _ => ""

/-- The dispatch loop of `analyze_stock_with_ai`
(`02-function-calling/5_stock_analysis.py` lines 349-367): execute every
invocation in order, appending each result; unknown names yield the
plain string `f"Unknown function: {name}"`; there is no per-call `try`,
so a raised local function aborts the whole loop (`.error`).  Returns
the accumulated `(name, input)` dispatches together with the result
list or the escaping exception. -/
def stockExecCalls (impl : LocalImpl) :
    List PyVal → List (PyVal × PyVal) × Except String (List PyVal)
  | [] => ([], .ok [])
  | func_call :: rest =>
    match (do
        let name ← func_call.sub "name"
        let input ← func_call.sub "input"
        pure (name, input) : Except String (PyVal × PyVal)) with
    | .error e => ([], .error e)
    | .ok (function_name, function_input) =>
      if function_name.isStrEq "get_stock_data"
          || function_name.isStrEq "calculate_technical_indicators"
          || function_name.isStrEq "compare_stocks" then
        match impl (strOrEmpty function_name) function_input with
        | .error e => ([(function_name, function_input)], .error e)
        | .ok result =>
          let (disp, rs) := stockExecCalls impl rest
          ((function_name, function_input) :: disp,
           match rs with
           | .error e => .error e
           | .ok rs => .ok (result :: rs))
      else
        let unknown := PyVal.str ("Unknown function: " ++ pyStr function_name)
        let (disp, rs) := stockExecCalls impl rest
        (disp,
         match rs with
         | .error e => .error e
         | .ok rs => .ok (unknown :: rs))

/-- `analyze_stock_with_ai(user_query)` from
`02-function-calling/5_stock_analysis.py` lines 280-425: one request;
on a function-call response execute **all** invocations in order and
resubmit with one result per invocation; `raise_for_status` errors are
caught as `RequestException`, everything else by `except Exception`. -/
def analyze_stock_with_ai (oracle : Oracle) (impl : LocalImpl)
    (user_query : String) : ScriptResult StockOutcome :=
  let t1 := [userMsg user_query]
  match oracle t1 with
  | .raised msg => ⟨[t1], [], [], .requestError msg⟩
  | .resp code body =>
    if 400 ≤ code then ⟨[t1], [], [], .requestError ("HTTPError: " ++ toString code)⟩
    else
      match body with
      | .error e => ⟨[t1], [], [], .unexpectedError e⟩
      | .ok result =>
        match (do
            let items ← responseItems result
            scanItems items (Option.none, Option.none)) with
        | .error e => ⟨[t1], [], [], .unexpectedError e⟩
        | .ok (some function_call_item, assistant_message) =>
          match (do
              let fcid ← function_call_item.sub "function_call_id"
              let fcs ← function_call_item.sub "function_calls"
              let elems ← pyIterList fcs
              pure (fcid, fcs, elems) : Except String (PyVal × PyVal × List PyVal)) with
          | .error e => ⟨[t1], [], [], .unexpectedError e⟩
          | .ok (function_call_id, function_calls, elems) =>
            match stockExecCalls impl elems with
            | (disp, .error e) => ⟨[t1], disp, [], .unexpectedError e⟩
            | (disp, .ok function_results) =>
              let t2 := t1
                ++ optList assistant_message
                ++ [function_call_item,
                    resultMsg function_call_id function_results]
              let rounds := [(function_calls, function_results)]
              match oracle t2 with
              | .raised msg => ⟨[t1, t2], disp, rounds, .requestError msg⟩
              | .resp code2 body2 =>
                if 400 ≤ code2 then
                  ⟨[t1, t2], disp, rounds,
                   .requestError ("HTTPError: " ++ toString code2)⟩
                else
                  match body2 with
                  | .error e => ⟨[t1, t2], disp, rounds, .unexpectedError e⟩
                  | .ok final_result =>
                    match (do
                        let items ← responseItems final_result
                        findFirstAssistant items) with
                    | .error e => ⟨[t1, t2], disp, rounds, .unexpectedError e⟩
                    | .ok (some c) => ⟨[t1, t2], disp, rounds, .analysis c⟩
                    | .ok Option.none => ⟨[t1, t2], disp, rounds, .noneReturned⟩
        | .ok (Option.none, assistant_message) =>
          match assistant_message with
          | some m =>
            match m.sub "content" with
            | .error e => ⟨[t1], [], [], .unexpectedError e⟩
            | .ok c => ⟨[t1], [], [], .directResponse c⟩
          | Option.none => ⟨[t1], [], [], .noneReturned⟩

/-! ## Transcript pairing predicates (spec §3 invariant) -/

/-- A message of type `function_call`. -/
def isFunctionCallMsg (v : PyVal) : Bool :=
  match v.lookup "type" with
  | some t => t.isStrEq "function_call"
  | Option.none => false

/-- A message of type `function_call_result`. -/
def isFunctionResultMsg (v : PyVal) : Bool :=
  match v.lookup "type" with
  | some t => t.isStrEq "function_call_result"
  | Option.none => false

/-- `res` is a function-result message whose `function_call_id` equals
that of the function-call message `fc`. -/
def answersCall (fc res : PyVal) : Bool :=
  isFunctionResultMsg res &&
  (match fc.lookup "function_call_id", res.lookup "function_call_id" with
   | some a, some b => a.beq b
   | _, _ => false)

/-- The transcript pairing invariant: every function-call message is
immediately followed by a function-result message with a matching
`function_call_id`, and no function-call message dangles at the end. -/
def wellPaired : List PyVal → Bool
  | [] => true
  | m :: rest =>
    if isFunctionCallMsg m then
      match rest with
      | [] => false
      | r :: rest2 => answersCall m r && wellPaired rest2
    else
      wellPaired rest

/-! ## Shape helpers for the `parse_api_response` claim -/

/-- The `[{"content": ...}]` extraction: the `content` of the first
element when the value is a non-empty list whose first element is a
dict carrying `content`. -/
def firstContent (arr : PyVal) : Option PyVal :=
  match arr with
  | .list (first :: _) =>
    if first.isDict && first.hasKey "content" then first.lookup "content"
    else Option.none
  | _ => Option.none

/-- The content a recognized response shape carries:
`{"result": "<str>"}`, `{"result": {"response": [{"content": c}, ...]}}`
or (with no `result` key) `{"response": [{"content": c}, ...]}`. -/
def recognizedContent (v : PyVal) : Option PyVal :=
  if v.isDict then
    match v.lookup "result" with
    | some inner =>
      if inner.isStr then some inner
      else if inner.isDict && inner.hasKey "response" then
        firstContent ((inner.lookup "response").getD .none)
      else Option.none
    | Option.none =>
      match v.lookup "response" with
      | some arr => firstContent arr
      | Option.none => Option.none
  else Option.none

/-- The component whose `str()` rendering `parse_api_response` falls
back to when no shape is recognized: the `result` value when that key
is present, else the `response` value when that key is present, else
the whole input. -/
def fallbackTarget (v : PyVal) : PyVal :=
  if v.isDict then
    match v.lookup "result" with
    | some inner => inner
    | Option.none =>
      match v.lookup "response" with
      | some arr => arr
      | Option.none => v
  else v

/-! ## Concrete stubs used to instantiate the theorems -/

/-- A 200 response whose body is `{"result": {"response": items}}`. -/
def respOk (items : List PyVal) : HttpResult :=
  .resp 200 (.ok (.dict [("result", .dict [("response", .list items)])]))

/-- One `{"name": ..., "input": ...}` invocation. -/
def mkCall (name : String) (input : PyVal) : PyVal :=
  .dict [("name", .str name), ("input", input)]

/-- A function-call response item. -/
def mkFnCallItem (fcid : String) (calls : List PyVal) : PyVal :=
  .dict [("type", .str "function_call"), ("function_call_id", .str fcid),
         ("function_calls", .list calls)]

/-- A plain assistant response item. -/
def assistantItem (content : String) : PyVal :=
  .dict [("role", .str "assistant"), ("content", .str content)]

/-- A model stub that requests `check_calendar_availability` on every
response. -/
def alwaysCallOracle : Oracle := fun _ =>
  respOk [mkFnCallItem "call-1"
    [mkCall "check_calendar_availability" (.dict [("date", .str "2024-01-15")])]]

/-- A model stub whose function-call item carries two invocations. -/
def twoCallOracle : Oracle := fun _ =>
  respOk [mkFnCallItem "call-3"
    [mkCall "check_calendar_availability" (.dict [("date", .str "2024-01-15")]),
     mkCall "create_calendar_event" (.dict [("title", .str "Sync")])]]

/-- A model stub that requests a function absent from every dispatcher. -/
def bogusCallOracle : Oracle := fun _ =>
  respOk [mkFnCallItem "call-9" [mkCall "bogus_function" (.dict [])]]

/-- A model stub that requests `get_stock_data`. -/
def stockCallOracle : Oracle := fun _ =>
  respOk [mkFnCallItem "call-7" [mkCall "get_stock_data" (.dict [("symbol", .str "AAPL")])]]

/-- A model stub that always fails at the transport level. -/
def failTransportOracle : Oracle := fun _ => .raised "ConnectionError"

/-- A model stub whose first (and every) response is plain assistant
text with no function call. -/
def textOracle : Oracle := fun _ => respOk [assistantItem "The sky is blue."]

/-- A `json.loads` stand-in for runs that never reach argument parsing. -/
def noJsonParse : String → Except String PyVal := fun _ => .error "unused"

/-- A dispatcher stub whose functions always return normally. -/
def trivialImpl : LocalImpl := fun _ _ => .ok (.dict [("available", .bool true)])

/-- A dispatcher stub whose functions always raise. -/
def failImpl : LocalImpl := fun _ _ => .error "boom"

/-- One invocation of the stock-analysis dispatch loop, in isolation:
what `analyze_stock_with_ai` computes for the invocation `func_call`
(`5_stock_analysis.py` lines 352-366). -/
def stockExecOne (impl : LocalImpl) (func_call : PyVal) : Except String PyVal := do
  let function_name ← func_call.sub "name"
  let function_input ← func_call.sub "input"
  if function_name.isStrEq "get_stock_data"
      || function_name.isStrEq "calculate_technical_indicators"
      || function_name.isStrEq "compare_stocks" then
    impl (strOrEmpty function_name) function_input
  else
    .ok (.str ("Unknown function: " ++ pyStr function_name))

/-! ## Helper lemmas -/

mutual

theorem beq_refl : ∀ v : PyVal, v.beq v = true
  | .none => rfl
  | .bool b => by simp [PyVal.beq]
  | .int n => by simp [PyVal.beq]
  | .str s => by simp [PyVal.beq]
  | .list xs => by simpa [PyVal.beq] using beqList_refl xs
  | .dict es => by simpa [PyVal.beq] using beqEntries_refl es

theorem beqList_refl : ∀ xs : List PyVal, PyVal.beqList xs xs = true
  | [] => rfl
  | x :: xs => by simp [PyVal.beqList, beq_refl x, beqList_refl xs]

theorem beqEntries_refl : ∀ es : List (String × PyVal), PyVal.beqEntries es es = true
  | [] => rfl
  | (k, v) :: es => by simp [PyVal.beqEntries, beq_refl v, beqEntries_refl es]

end

/-- A successful string subscript is exactly a successful lookup. -/
theorem sub_ok_lookup {v : PyVal} {k : String} {w : PyVal}
    (h : v.sub k = .ok w) : v.lookup k = some w := by
  cases v with
  | dict es =>
    simp only [PyVal.sub] at h
    cases hl : es.lookup k with
    | none => simp [hl] at h
    | some u => simp [hl] at h; simp [PyVal.lookup, hl, h]
  | _ => simp [PyVal.sub] at h

/-- A function-result message answers the call it was built from. -/
theorem answersCall_resultMsg {fc : PyVal} {fcid : PyVal} {rs : List PyVal}
    (h : fc.lookup "function_call_id" = some fcid) :
    answersCall fc (resultMsg fcid rs) = true := by
  have h2 : (resultMsg fcid rs).lookup "function_call_id" = some fcid := rfl
  have h3 : isFunctionResultMsg (resultMsg fcid rs) = true := rfl
  simp [answersCall, h3, h, h2, beq_refl]

/-- A message that answers a call is itself not a function-call message. -/
theorem answersCall_not_fc {fc res : PyVal} (h : answersCall fc res = true) :
    isFunctionCallMsg res = false := by
  simp [answersCall, isFunctionResultMsg] at h
  obtain ⟨h1, -⟩ := h
  unfold isFunctionCallMsg
  cases hl : res.lookup "type" with
  | none => simp [hl] at h1
  | some t =>
    simp [hl] at h1 ⊢
    cases t <;> simp [PyVal.isStrEq] at h1 ⊢
    rename_i s
    simp [h1]

/-- A two-element block `[call, matching result]` satisfies the pairing
invariant. -/
theorem wellPaired_pair {fc res : PyVal} (h : answersCall fc res = true) :
    wellPaired [fc, res] = true := by
  cases hfc : isFunctionCallMsg fc with
  | true => simp [wellPaired, hfc, h]
  | false => simp [wellPaired, hfc, answersCall_not_fc h]

/-- Unfolding `wellPaired` at a function-call head. -/
theorem wellPaired_cons_fc {m : PyVal} (hfc : isFunctionCallMsg m = true) :
    ∀ rest, wellPaired (m :: rest) =
      (match rest with
       | [] => false
       | r :: rest2 => answersCall m r && wellPaired rest2)
  | [] => by simp [wellPaired, hfc]
  | r :: rest2 => by simp [wellPaired, hfc]

/-- Unfolding `wellPaired` at a head that is not a function call. -/
theorem wellPaired_cons_not_fc {m : PyVal} (hfc : isFunctionCallMsg m = false) :
    ∀ rest, wellPaired (m :: rest) = wellPaired rest
  | [] => by simp [wellPaired, hfc]
  | r :: rest2 => by simp [wellPaired, hfc]

/-- Concatenation preserves the pairing invariant. -/
theorem wellPaired_append : ∀ {xs ys : List PyVal},
    wellPaired xs = true → wellPaired ys = true → wellPaired (xs ++ ys) = true
  | [], _, _, hys => hys
  | [m], ys, hxs, hys => by
    cases hfc : isFunctionCallMsg m with
    | true => rw [wellPaired_cons_fc hfc] at hxs; simp at hxs
    | false =>
      rw [List.singleton_append, wellPaired_cons_not_fc hfc]
      exact hys
  | m :: r :: rest2, ys, hxs, hys => by
    cases hfc : isFunctionCallMsg m with
    | true =>
      rw [wellPaired_cons_fc hfc] at hxs
      simp only [Bool.and_eq_true] at hxs
      obtain ⟨hans, hrest⟩ := hxs
      have ih := @wellPaired_append rest2 ys hrest hys
      rw [List.cons_append, wellPaired_cons_fc hfc]
      simp [hans, ih]
    | false =>
      rw [wellPaired_cons_not_fc hfc] at hxs
      have ih := @wellPaired_append (r :: rest2) ys hxs hys
      rw [List.cons_append, wellPaired_cons_not_fc hfc]
      exact ih

/-- A successful `.get` is a successful lookup, or a missing key and the
default `None`. -/
theorem pyGet_ok_cases {item : PyVal} {k : String} {t : PyVal}
    (h : item.pyGet k = .ok t) :
    item.lookup k = some t ∨ (item.lookup k = Option.none ∧ t = .none) := by
  cases item with
  | dict es =>
    simp only [PyVal.pyGet] at h
    cases hl : es.lookup k with
    | none => simp [hl] at h; right; simp [PyVal.lookup, hl]; exact h.symm
    | some w => simp [hl] at h; left; simp [PyVal.lookup, hl, h]
  | _ => simp [PyVal.pyGet] at h

/-- After a successful `.get("type")` the function-call test on the
message agrees with the test on the fetched value. -/
theorem isFC_of_pyGet {item t : PyVal} (h : item.pyGet "type" = .ok t) :
    isFunctionCallMsg item = t.isStrEq "function_call" := by
  rcases pyGet_ok_cases h with hl | ⟨hl, ht⟩
  · simp [isFunctionCallMsg, hl]
  · simp [isFunctionCallMsg, hl, ht, PyVal.isStrEq]

/-- The response scan only reports a function-call item that really has
`type == 'function_call'`, and only an assistant item that does not. -/
theorem scanItems_props : ∀ (items : List PyVal) (st out : Option PyVal × Option PyVal),
    scanItems items st = .ok out →
    (∀ x, st.1 = some x → isFunctionCallMsg x = true) →
    (∀ x, st.2 = some x → isFunctionCallMsg x = false) →
    (∀ x, out.1 = some x → isFunctionCallMsg x = true) ∧
    (∀ x, out.2 = some x → isFunctionCallMsg x = false)
  | [], st, out, h, h1, h2 => by
    simp only [scanItems] at h
    cases h
    exact ⟨h1, h2⟩
  | item :: rest, (fci, am), out, h, h1, h2 => by
    simp only [scanItems] at h
    cases hg : item.pyGet "type" with
    | error e => simp only [hg] at h; cases h
    | ok t =>
      simp only [hg] at h
      by_cases ht : t.isStrEq "function_call" = true
      · rw [if_pos ht] at h
        refine scanItems_props rest _ out h ?_ h2
        intro x hx
        cases hx
        rw [isFC_of_pyGet hg]
        exact ht
      · rw [if_neg ht] at h
        cases hr : item.pyGet "role" with
        | error e => simp only [hr] at h; cases h
        | ok r =>
          simp only [hr] at h
          by_cases hra : r.isStrEq "assistant" = true
          · rw [if_pos hra] at h
            refine scanItems_props rest _ out h h1 ?_
            intro x hx
            cases hx
            rw [isFC_of_pyGet hg]
            simpa using ht
          · rw [if_neg hra] at h
            exact scanItems_props rest _ out h h1 h2

/-- The message block a dispatch round appends — optional assistant
message, the function-call item, and the matching result message —
satisfies the pairing invariant on its own. -/
theorem block_wellPaired {am : Option PyVal} {fci fcid : PyVal} {rs : List PyVal}
    (ham : ∀ x, am = some x → isFunctionCallMsg x = false)
    (hid : fci.lookup "function_call_id" = some fcid) :
    wellPaired (optList am ++ [fci, resultMsg fcid rs]) = true := by
  have hpair := wellPaired_pair (@answersCall_resultMsg fci fcid rs hid)
  cases am with
  | none => simpa [optList] using hpair
  | some m =>
    have hm := ham m rfl
    rw [optList, List.cons_append, List.nil_append, wellPaired_cons_not_fc hm]
    exact hpair

/-- Appending one transcript to a list of well-paired transcripts. -/
theorem submitted_extend {ss : List (List PyVal)} {h : List PyVal}
    (hs : ∀ t ∈ ss, wellPaired t = true) (hh : wellPaired h = true) :
    ∀ t ∈ ss ++ [h], wellPaired t = true := by
  intro t ht
  rcases List.mem_append.mp ht with hin | hin
  · exact hs t hin
  · rw [List.mem_singleton.mp hin]; exact hh

/-- Appending a singleton-result round to a list of singleton-result
rounds. -/
theorem rounds_extend {rs : List (PyVal × List PyVal)} {fcs : PyVal} {r : PyVal}
    (h : ∀ p ∈ rs, p.2.length = 1) :
    ∀ p ∈ rs ++ [(fcs, [r])], p.2.length = 1 := by
  intro p hp
  rcases List.mem_append.mp hp with hin | hin
  · exact h p hin
  · rw [List.mem_singleton.mp hin]; rfl

/-- Run invariants of the advanced-workflow loop: the number of
submitted requests is bounded by the remaining fuel, the step counter
always equals the number of request attempts, every submitted
transcript satisfies the pairing invariant, and every function-result
message built carries exactly one result value. -/
theorem advLoop_inv (oracle : Oracle) (impl : LocalImpl) :
    ∀ (fuel : Nat) (s : OrchSt),
      s.stepCount = s.submitted.length →
      wellPaired s.history = true →
      (∀ t ∈ s.submitted, wellPaired t = true) →
      (∀ p ∈ s.callRounds, p.2.length = 1) →
      (advLoop oracle impl fuel s).final.submitted.length ≤ s.submitted.length + fuel ∧
      (advLoop oracle impl fuel s).final.stepCount =
        (advLoop oracle impl fuel s).final.submitted.length ∧
      (∀ t ∈ (advLoop oracle impl fuel s).final.submitted, wellPaired t = true) ∧
      (∀ p ∈ (advLoop oracle impl fuel s).final.callRounds, p.2.length = 1)
  | 0, s, hB, _, hC, hD => by
    simp only [advLoop]
    exact ⟨Nat.le_add_right _ _, hB, hC, hD⟩
  | fuel + 1, s, hB, hH, hC, hD => by
    have hlen : (s.submitted ++ [s.history]).length = s.submitted.length + 1 := by simp
    have hB1 : s.stepCount + 1 = (s.submitted ++ [s.history]).length := by
      rw [hlen, hB]
    have hC1 : ∀ t ∈ s.submitted ++ [s.history], wellPaired t = true :=
      submitted_extend hC hH
    simp only [advLoop]
    cases ho : oracle s.history with
    | raised msg =>
      simp only [ho]
      refine ⟨by simp, hB1, hC1, hD⟩
    | resp code body =>
      simp only [ho]
      by_cases hcode : code ≠ 200
      · rw [if_pos hcode]
        refine ⟨by simp, hB1, hC1, hD⟩
      · rw [if_neg hcode]
        cases body with
        | error e =>
          refine ⟨by simp, hB1, hC1, hD⟩
        | ok result =>
          cases hitems : responseItems result with
          | error e =>
            simp only [hitems]
            refine ⟨by simp, hB1, hC1, hD⟩
          | ok items =>
            simp only [hitems]
            cases hscan : scanItems items (Option.none, Option.none) with
            | error e =>
              simp only [hscan]
              refine ⟨by simp, hB1, hC1, hD⟩
            | ok pair =>
              obtain ⟨fciOpt, amOpt⟩ := pair
              have hprops := scanItems_props items (Option.none, Option.none)
                (fciOpt, amOpt) hscan (by intro x hx; cases hx) (by intro x hx; cases hx)
              cases fciOpt with
              | some function_call_item =>
                simp only []
                cases hext : (do
                    let fcid ← function_call_item.sub "function_call_id"
                    let fcs ← function_call_item.sub "function_calls"
                    let n ← fcs.pyLen
                    pure (fcid, fcs, n) : Except String (PyVal × PyVal × Nat)) with
                | error e =>
                  simp only [hext]
                  refine ⟨by simp, hB1, hC1, hD⟩
                | ok triple =>
                  simp only [hext]
                  obtain ⟨function_call_id, function_calls, n⟩ := triple
                  -- recover the subscript equation for the call id
                  have hid : function_call_item.lookup "function_call_id"
                      = some function_call_id := by
                    cases h1 : function_call_item.sub "function_call_id" with
                    | error e => simp [h1, Bind.bind, Except.bind, Functor.map, Except.map, pure, Except.pure] at hext
                    | ok a =>
                      cases h2 : function_call_item.sub "function_calls" with
                      | error e => simp [h1, h2, Bind.bind, Except.bind, Functor.map, Except.map, pure, Except.pure] at hext
                      | ok b =>
                        cases h3 : b.pyLen with
                        | error e => simp [h1, h2, h3, Bind.bind, Except.bind, Functor.map, Except.map, pure, Except.pure] at hext
                        | ok m =>
                          simp [h1, h2, h3, Bind.bind, Except.bind, Functor.map, Except.map, pure, Except.pure] at hext
                          obtain ⟨rfl, -, -⟩ := hext
                          exact sub_ok_lookup h1
                  by_cases hn : n > 0
                  · rw [if_pos hn]
                    cases hext2 : (do
                        let fc ← function_calls.sub0
                        let name ← fc.sub "name"
                        let input ← fc.sub "input"
                        pure (name, input) : Except String (PyVal × PyVal)) with
                    | error e =>
                      simp only [hext2]
                      refine ⟨by simp, hB1, hC1, hD⟩
                    | ok pair2 =>
                      simp only [hext2]
                      obtain ⟨function_name, function_input⟩ := pair2
                      have hblock : wellPaired (optList amOpt
                        ++ [function_call_item,
                            resultMsg function_call_id
                              [execute_workflow_function impl function_name function_input]])
                          = true :=
                        block_wellPaired (fun x hx => hprops.2 x hx) hid
                      have hH2 : wellPaired (s.history
                          ++ (optList amOpt
                            ++ [function_call_item,
                                resultMsg function_call_id
                                  [execute_workflow_function impl function_name function_input]]))
                          = true :=
                        wellPaired_append hH hblock
                      by_cases hlog : function_name.isStrEq "log_workflow_completion" = true
                      · rw [if_pos hlog]
                        refine ⟨by simp, hB1, hC1, rounds_extend hD⟩
                      · rw [if_neg hlog]
                        have ih := advLoop_inv oracle impl fuel
                          { history := s.history
                              ++ optList amOpt
                              ++ [function_call_item,
                                  resultMsg function_call_id
                                    [execute_workflow_function impl function_name function_input]],
                            stepCount := s.stepCount + 1,
                            submitted := s.submitted ++ [s.history],
                            dispatched := s.dispatched ++ [(function_name, function_input)],
                            callRounds := s.callRounds
                              ++ [(function_calls,
                                   [execute_workflow_function impl function_name function_input])] }
                          hB1 (by simpa [List.append_assoc] using hH2) hC1 (rounds_extend hD)
                        refine ⟨?_, ih.2.1, ih.2.2.1, ih.2.2.2⟩
                        calc _ ≤ (s.submitted ++ [s.history]).length + fuel := ih.1
                          _ = s.submitted.length + (fuel + 1) := by simp only [List.length_append, List.length_cons, List.length_nil]; omega
                  · rw [if_neg hn]
                    have ih := advLoop_inv oracle impl fuel
                      { history := s.history,
                        stepCount := s.stepCount + 1,
                        submitted := s.submitted ++ [s.history],
                        dispatched := s.dispatched,
                        callRounds := s.callRounds }
                      hB1 hH hC1 hD
                    refine ⟨?_, ih.2.1, ih.2.2.1, ih.2.2.2⟩
                    calc _ ≤ (s.submitted ++ [s.history]).length + fuel := ih.1
                      _ = s.submitted.length + (fuel + 1) := by simp only [List.length_append, List.length_cons, List.length_nil]; omega
              | none =>
                cases amOpt with
                | some assistant_message =>
                  simp only []
                  have hamfc : isFunctionCallMsg assistant_message = false :=
                    hprops.2 assistant_message rfl
                  cases hcont : assistant_message.sub "content" with
                  | error e =>
                    simp only [hcont]
                    refine ⟨by simp, hB1, hC1, hD⟩
                  | ok ai_response =>
                    simp only [hcont]
                    have hH2 : wellPaired (s.history ++ [assistant_message]) = true := by
                      refine wellPaired_append hH ?_
                      rw [wellPaired_cons_not_fc hamfc]
                      rfl
                    cases ai_response with
                    | str txt =>
                      simp only []
                      by_cases hdone : (strContains txt.toLower "complete"
                          || strContains txt.toLower "finished") = true
                      · rw [if_pos hdone]
                        refine ⟨by simp, hB1, hC1, hD⟩
                      · rw [if_neg hdone]
                        have ih := advLoop_inv oracle impl fuel
                          { history := s.history ++ [assistant_message],
                            stepCount := s.stepCount + 1,
                            submitted := s.submitted ++ [s.history],
                            dispatched := s.dispatched,
                            callRounds := s.callRounds }
                          hB1 hH2 hC1 hD
                        refine ⟨?_, ih.2.1, ih.2.2.1, ih.2.2.2⟩
                        calc _ ≤ (s.submitted ++ [s.history]).length + fuel := ih.1
                          _ = s.submitted.length + (fuel + 1) := by simp only [List.length_append, List.length_cons, List.length_nil]; omega
                    | _ =>
                      simp only []
                      refine ⟨by simp, hB1, hC1, hD⟩
                | none =>
                  simp only []
                  refine ⟨by simp, hB1, hC1, hD⟩

/-- The stock dispatch loop executes the invocations pointwise, in
order: a successful run returns one result per invocation, and the
`i`-th result is what `stockExecOne` yields on the `i`-th invocation. -/
theorem stockExecCalls_ok (impl : LocalImpl) :
    ∀ (calls : List PyVal) (disp : List (PyVal × PyVal)) (rs : List PyVal),
      stockExecCalls impl calls = (disp, .ok rs) →
      rs.length = calls.length ∧
      ∀ i (h1 : i < calls.length) (h2 : i < rs.length),
        stockExecOne impl (calls.get ⟨i, h1⟩) = .ok (rs.get ⟨i, h2⟩)
  | [], disp, rs, h => by
    simp only [stockExecCalls] at h
    obtain ⟨-, h2⟩ := Prod.mk.injEq .. ▸ h
    cases h2
    exact ⟨rfl, by intro i h1 _; exact absurd h1 (by simp)⟩
  | fc :: rest, disp, rs, h => by
    simp only [stockExecCalls] at h
    cases hni : (do
        let name ← fc.sub "name"
        let input ← fc.sub "input"
        pure (name, input) : Except String (PyVal × PyVal)) with
    | error e => rw [hni] at h; cases h
    | ok pair =>
      rw [hni] at h
      obtain ⟨function_name, function_input⟩ := pair
      simp only [] at h
      obtain ⟨hname, hinput⟩ : fc.sub "name" = .ok function_name ∧
          fc.sub "input" = .ok function_input := by
        cases ha : fc.sub "name" with
        | error e => simp [ha, Bind.bind, Except.bind] at hni
        | ok a =>
          cases hb : fc.sub "input" with
          | error e =>
            simp [ha, hb, Bind.bind, Except.bind, pure, Except.pure] at hni
          | ok b =>
            simp [ha, hb, Bind.bind, Except.bind, pure, Except.pure] at hni
            exact ⟨by rw [hni.1], by rw [hni.2]⟩
      by_cases hknown : (function_name.isStrEq "get_stock_data"
          || function_name.isStrEq "calculate_technical_indicators"
          || function_name.isStrEq "compare_stocks") = true
      · rw [if_pos hknown] at h
        cases himpl : impl (strOrEmpty function_name) function_input with
        | error e => rw [himpl] at h; cases h
        | ok r =>
          rw [himpl] at h
          cases hrec : stockExecCalls impl rest with
          | mk d' res' =>
            rw [hrec] at h
            cases res' with
            | error e => simp at h
            | ok rs' =>
              simp only [] at h
              obtain ⟨-, hrs⟩ := Prod.mk.injEq .. ▸ h
              cases hrs
              have ih := stockExecCalls_ok impl rest d' rs' hrec
              refine ⟨by simp [ih.1], ?_⟩
              intro i h1 h2
              cases i with
              | zero =>
                simp only [List.get]
                simp only [stockExecOne, hname, hinput, Bind.bind, Except.bind]
                rw [if_pos hknown, himpl]
              | succ j =>
                simp only [List.get]
                exact ih.2 j (by simpa using h1) (by simpa using h2)
      · rw [if_neg hknown] at h
        cases hrec : stockExecCalls impl rest with
        | mk d' res' =>
          rw [hrec] at h
          cases res' with
          | error e => simp at h
          | ok rs' =>
            simp only [] at h
            obtain ⟨-, hrs⟩ := Prod.mk.injEq .. ▸ h
            cases hrs
            have ih := stockExecCalls_ok impl rest d' rs' hrec
            refine ⟨by simp [ih.1], ?_⟩
            intro i h1 h2
            cases i with
            | zero =>
              simp only [List.get]
              simp only [stockExecOne, hname, hinput, Bind.bind, Except.bind]
              rw [if_neg hknown]
            | succ j =>
              simp only [List.get]
              exact ih.2 j (by simpa using h1) (by simpa using h2)

/-- Every function-result message the stock-analysis run builds answers
a function-call item whose invocation list it matches: one result per
invocation, in invocation order. -/
theorem analyze_stock_rounds (oracle : Oracle) (impl : LocalImpl) (q : String) :
    ∀ p ∈ (analyze_stock_with_ai oracle impl q).callRounds,
      ∀ calls, p.1 = PyVal.list calls →
        p.2.length = calls.length ∧
        ∀ i (h1 : i < calls.length) (h2 : i < p.2.length),
          stockExecOne impl (calls.get ⟨i, h1⟩) = .ok (p.2.get ⟨i, h2⟩) := by
  intro p hp calls hcalls
  simp only [analyze_stock_with_ai] at hp
  cases ho : oracle [userMsg q] with
  | raised msg => rw [ho] at hp; simp at hp
  | resp code body =>
    rw [ho] at hp
    simp only [] at hp
    by_cases hc : 400 ≤ code
    · rw [if_pos hc] at hp; simp at hp
    · rw [if_neg hc] at hp
      cases body with
      | error e => simp at hp
      | ok result =>
        simp only [] at hp
        cases hsc : (do
            let items ← responseItems result
            scanItems items (Option.none, Option.none) :
              Except String (Option PyVal × Option PyVal)) with
        | error e => rw [hsc] at hp; simp at hp
        | ok pair =>
          rw [hsc] at hp
          obtain ⟨fciOpt, amOpt⟩ := pair
          cases fciOpt with
          | none =>
            cases amOpt with
            | none => simp at hp
            | some m =>
              simp only [] at hp
              split at hp <;> simp at hp
          | some function_call_item =>
            simp only [] at hp
            cases hext : (do
                let fcid ← function_call_item.sub "function_call_id"
                let fcs ← function_call_item.sub "function_calls"
                let elems ← pyIterList fcs
                pure (fcid, fcs, elems) :
                  Except String (PyVal × PyVal × List PyVal)) with
            | error e => rw [hext] at hp; simp at hp
            | ok triple =>
              rw [hext] at hp
              obtain ⟨fcid, fcs, elems⟩ := triple
              simp only [] at hp
              cases hexec : stockExecCalls impl elems with
              | mk disp res =>
                rw [hexec] at hp
                cases res with
                | error e => simp at hp
                | ok function_results =>
                  simp only [] at hp
                  have hpair : p = (fcs, function_results) := by
                    split at hp
                    · simpa using hp
                    · split at hp
                      · simpa using hp
                      · split at hp
                        · simpa using hp
                        · split at hp <;> simpa using hp
                  have helems : pyIterList fcs = .ok elems := by
                    cases h1 : function_call_item.sub "function_call_id" with
                    | error e =>
                      simp [h1, Bind.bind, Except.bind] at hext
                    | ok a =>
                      cases h2 : function_call_item.sub "function_calls" with
                      | error e =>
                        simp [h1, h2, Bind.bind, Except.bind] at hext
                      | ok b =>
                        cases h3 : pyIterList b with
                        | error e =>
                          simp [h1, h2, h3, Bind.bind, Except.bind, pure,
                            Except.pure] at hext
                        | ok l =>
                          simp [h1, h2, h3, Bind.bind, Except.bind, pure,
                            Except.pure] at hext
                          rcases hext with ⟨rfl, rfl, rfl⟩
                          exact h3
                  rw [hpair] at hcalls ⊢
                  simp only [] at hcalls ⊢
                  rw [hcalls] at helems
                  simp [pyIterList] at helems
                  subst helems
                  exact stockExecCalls_ok impl calls disp function_results hexec

/-- Processing a prefix of SSE lines is insensitive to replacing what
follows by an equivalent tail (`get_streaming_response` loop). -/
theorem streamLoop4_congr_tail :
    ∀ (pre tail1 tail2 : List SSELine) (acc : String),
      (∀ acc', streamLoop4 tail1 acc' = streamLoop4 tail2 acc') →
      streamLoop4 (pre ++ tail1) acc = streamLoop4 (pre ++ tail2) acc
  | [], _, _, acc, h => h acc
  | l :: pre', t1, t2, acc, h => by
    cases l with
    | blank => simpa [streamLoop4] using streamLoop4_congr_tail pre' t1 t2 acc h
    | noData s => simpa [streamLoop4] using streamLoop4_congr_tail pre' t1 t2 acc h
    | rawDone => simp [streamLoop4]
    | badJson s => simpa [streamLoop4] using streamLoop4_congr_tail pre' t1 t2 acc h
    | jsonLine v =>
      simp only [List.cons_append, streamLoop4]
      cases streamChunkText4 v with
      | error e => rfl
      | ok o =>
        cases o with
        | none => exact streamLoop4_congr_tail pre' t1 t2 acc h
        | some s => exact streamLoop4_congr_tail pre' t1 t2 (acc ++ s) h

/-- Processing a prefix of SSE lines is insensitive to replacing what
follows by an equivalent tail (`streaming_chat_example` loop). -/
theorem streamLoop2_congr_tail :
    ∀ (pre tail1 tail2 : List SSELine) (acc : String),
      (∀ acc', streamLoop2 tail1 acc' = streamLoop2 tail2 acc') →
      streamLoop2 (pre ++ tail1) acc = streamLoop2 (pre ++ tail2) acc
  | [], _, _, acc, h => h acc
  | l :: pre', t1, t2, acc, h => by
    cases l with
    | blank => simpa [streamLoop2] using streamLoop2_congr_tail pre' t1 t2 acc h
    | noData s => simpa [streamLoop2] using streamLoop2_congr_tail pre' t1 t2 acc h
    | rawDone => simpa [streamLoop2] using streamLoop2_congr_tail pre' t1 t2 acc h
    | badJson s => simpa [streamLoop2] using streamLoop2_congr_tail pre' t1 t2 acc h
    | jsonLine v =>
      simp only [List.cons_append, streamLoop2]
      cases streamChunkText2 v with
      | stop => rfl
      | skip => exact streamLoop2_congr_tail pre' t1 t2 acc h
      | emit s => exact streamLoop2_congr_tail pre' t1 t2 (acc ++ s) h

/-- `hasKey` is exactly lookup success. -/
theorem hasKey_eq_lookup_isSome :
    ∀ (es : List (String × PyVal)) (k : String),
      (PyVal.dict es).hasKey k = (List.lookup k es).isSome
  | [], _ => rfl
  | (a, b) :: es, k => by
    have hsymm : (a == k) = (k == a) := by
      by_cases h : a = k
      · simp [h]
      · simp [h, Ne.symm h]
    by_cases h : k == a
    · simp [PyVal.hasKey, List.lookup, h, hsymm]
    · simp only [PyVal.hasKey, List.any_cons] at *
      simp [List.lookup, h, hsymm, ← hasKey_eq_lookup_isSome es k, PyVal.hasKey]

/-- Every transcript `simple_calculator_example` submits satisfies the
pairing invariant: the first request carries only the user message, and
the second extends it by the optional assistant message followed by the
function-call item and its immediately matching result message. -/
theorem simple_calc_submitted_paired (oracle : Oracle) :
    ∀ t ∈ (simple_calculator_example oracle).submitted, wellPaired t = true := by
  intro t ht
  have h1 : wellPaired [userMsg "What is 127 + 349?"] = true := rfl
  simp only [simple_calculator_example] at ht
  cases ho : oracle [userMsg "What is 127 + 349?"] with
  | raised msg =>
    rw [ho] at ht; simp at ht; rw [ht]; exact h1
  | resp code body =>
    rw [ho] at ht
    simp only [] at ht
    by_cases hcode : code ≠ 200
    · rw [if_pos hcode] at ht; simp at ht; rw [ht]; exact h1
    · rw [if_neg hcode] at ht
      cases body with
      | error e => simp at ht; rw [ht]; exact h1
      | ok result =>
        simp only [] at ht
        cases hsc : (do
            let items ← responseItems result
            scanItems items (Option.none, Option.none) :
              Except String (Option PyVal × Option PyVal)) with
        | error e => rw [hsc] at ht; simp at ht; rw [ht]; exact h1
        | ok pair =>
          rw [hsc] at ht
          obtain ⟨fciOpt, amOpt⟩ := pair
          have hprops : (∀ x, fciOpt = some x → isFunctionCallMsg x = true) ∧
              (∀ x, amOpt = some x → isFunctionCallMsg x = false) := by
            cases hri : responseItems result with
            | error e => simp [hri, Bind.bind, Except.bind] at hsc
            | ok items =>
              simp only [hri, Bind.bind, Except.bind] at hsc
              exact scanItems_props items (Option.none, Option.none) (fciOpt, amOpt)
                hsc (by intro x hx; cases hx) (by intro x hx; cases hx)
          cases fciOpt with
          | none =>
            cases amOpt with
            | none => simp at ht; rw [ht]; exact h1
            | some m =>
              simp only [] at ht
              split at ht <;> (simp at ht; rw [ht]; exact h1)
          | some function_call_item =>
            simp only [] at ht
            cases hext : (do
                let fcid ← function_call_item.sub "function_call_id"
                let fcs ← function_call_item.sub "function_calls"
                let n ← fcs.pyLen
                pure (fcid, fcs, n) : Except String (PyVal × PyVal × Nat)) with
            | error e => rw [hext] at ht; simp at ht; rw [ht]; exact h1
            | ok triple =>
              rw [hext] at ht
              obtain ⟨function_call_id, function_calls, n⟩ := triple
              simp only [] at ht
              have hid : function_call_item.lookup "function_call_id"
                  = some function_call_id := by
                cases ha : function_call_item.sub "function_call_id" with
                | error e => simp [ha, Bind.bind, Except.bind] at hext
                | ok a =>
                  cases hb : function_call_item.sub "function_calls" with
                  | error e => simp [ha, hb, Bind.bind, Except.bind] at hext
                  | ok b =>
                    cases hc : b.pyLen with
                    | error e =>
                      simp [ha, hb, hc, Bind.bind, Except.bind, pure,
                        Except.pure] at hext
                    | ok m =>
                      simp [ha, hb, hc, Bind.bind, Except.bind, pure,
                        Except.pure] at hext
                      obtain ⟨rfl, -, -⟩ := hext
                      exact sub_ok_lookup ha
              by_cases hn : n > 0
              · rw [if_pos hn] at ht
                cases hext2 : (do
                    let fc ← function_calls.sub0
                    let name ← fc.sub "name"
                    let input ← fc.sub "input"
                    pure (name, input) : Except String (PyVal × PyVal)) with
                | error e => rw [hext2] at ht; simp at ht; rw [ht]; exact h1
                | ok pair2 =>
                  rw [hext2] at ht
                  obtain ⟨function_name, function_input⟩ := pair2
                  simp only [] at ht
                  by_cases hcs : function_name.isStrEq "calculate_sum" = true
                  · rw [if_pos hcs] at ht
                    cases hsum : (do
                        let a ← function_input.sub "a"
                        let b ← function_input.sub "b"
                        calculate_sum a b : Except String PyVal) with
                    | error e => rw [hsum] at ht; simp at ht; rw [ht]; exact h1
                    | ok function_result =>
                      rw [hsum] at ht
                      simp only [] at ht
                      have h2 : wellPaired ([userMsg "What is 127 + 349?"]
                          ++ optList amOpt
                          ++ [function_call_item,
                              resultMsg function_call_id [function_result]]) = true := by
                        have hblock := @block_wellPaired amOpt
                          function_call_item function_call_id [function_result]
                          (fun x hx => hprops.2 x hx) hid
                        simpa [List.append_assoc] using wellPaired_append h1 hblock
                      have hmem : t ∈ ([[userMsg "What is 127 + 349?"],
                          [userMsg "What is 127 + 349?"] ++ optList amOpt
                            ++ [function_call_item,
                                resultMsg function_call_id [function_result]]]
                          : List (List PyVal)) := by
                        cases hor : oracle ([userMsg "What is 127 + 349?"]
                            ++ optList amOpt
                            ++ [function_call_item,
                                resultMsg function_call_id [function_result]]) with
                        | raised msg => rw [hor] at ht; simpa using ht
                        | resp code2 body2 =>
                          rw [hor] at ht
                          simp only [] at ht
                          by_cases hc2 : code2 = 200
                          · rw [if_pos hc2] at ht
                            cases body2 with
                            | error e => simpa using ht
                            | ok final_result =>
                              simp only [] at ht
                              split at ht <;> simpa using ht
                          · rw [if_neg hc2] at ht
                            simpa using ht
                      rcases List.mem_cons.mp hmem with rfl | hmem2
                      · exact h1
                      · rw [List.mem_singleton.mp hmem2]
                        exact h2
                  · rw [if_neg hcs] at ht
                    simp at ht; rw [ht]; exact h1
              · rw [if_neg hn] at ht
                simp at ht; rw [ht]; exact h1

/-! ## Claim theorems -/

/-- C1: the function-calling round-trip loop is bounded by the step
budget — for every run the number of request/dispatch round trips never
exceeds the budget, the budget hard-coded in the code is 10, and with a
step budget of 3 against a stub model that requests another function
call on every response, the run performs exactly 3 dispatch rounds
(never 4) and ends because the budget is exhausted (the code's
`Max steps reached` status). -/
theorem c1_step_budget :
    max_steps = 10 ∧
    (∀ (oracle : Oracle) (impl : LocalImpl) (b : Nat) (q : String),
      (advLoop oracle impl b (advInit q)).final.submitted.length ≤ b) ∧
    (advLoop alwaysCallOracle trivialImpl 3 (advInit "Schedule the meeting")).final.dispatched.length = 3 ∧
    (advLoop alwaysCallOracle trivialImpl 3 (advInit "Schedule the meeting")).outcome
      = RunOutcome.maxStepsReached := by
  refine ⟨rfl, ?_, rfl, rfl⟩
  intro oracle impl b q
  have h := advLoop_inv oracle impl b (advInit q) rfl rfl
    (by intro t ht; cases ht) (by intro p hp; cases hp)
  simpa [advInit] using h.1

/-- C2: every transcript submitted to the remote endpoint satisfies the
pairing invariant — each function-call message is immediately followed
by exactly one function-result message carrying the same
`function_call_id`, and no transcript is resubmitted with a dangling
call — in the advanced-workflow loop and in the calculator example. -/
theorem c2_transcript_pairing :
    (∀ (oracle : Oracle) (impl : LocalImpl) (q : String),
      ∀ t ∈ (run_advanced_workflow oracle impl q).final.submitted,
        wellPaired t = true) ∧
    (∀ oracle : Oracle,
      ∀ t ∈ (simple_calculator_example oracle).submitted, wellPaired t = true) := by
  constructor
  · intro oracle impl q
    have h := advLoop_inv oracle impl max_steps (advInit q) rfl rfl
      (by intro t ht; cases ht) (by intro p hp; cases hp)
    exact h.2.2.1
  · exact simple_calc_submitted_paired

/-- C2 witness: the pairing invariant holds for the one transcript the
advanced workflow submits when the transport fails at once. -/
theorem c2_transcript_pairing_witness :
    wellPaired [userMsg "hello"] = true :=
  c2_transcript_pairing.1 failTransportOracle trivialImpl "hello"
    [userMsg "hello"]
    (show [userMsg "hello"] ∈ [[userMsg "hello"]] from List.mem_singleton.mpr rfl)

/-- C7: streaming consumption assembles the assistant text as the
in-order concatenation of the delivered content fragments and stops at
the `[DONE]` sentinel: on the fragment sequence
`["Hel","lo"," world","[DONE]"]` both consumers assemble
`"Hello world"`, and no fragment delivered after the sentinel is
included, whatever follows it.  (`get_streaming_response` recognises
the literal `data: [DONE]` line; `streaming_chat_example` recognises
the sentinel as the JSON payload `{"content": "[DONE]"}`.) -/
theorem c7_streaming_assembly :
    (∀ suffix : List SSELine,
      get_streaming_response ([fragLine "Hel", fragLine "lo", fragLine " world"]
        ++ SSELine.rawDone :: suffix) = .ok "Hello world") ∧
    (∀ suffix : List SSELine,
      streaming_chat_example ([fragLine "Hel", fragLine "lo", fragLine " world"]
        ++ doneLine2 :: suffix) = "Hello world") :=
  ⟨fun _ => rfl, fun _ => rfl⟩

/-- C4: when the model's first response is an assistant text item with
no function call, the run returns that text after exactly one request,
dispatching nothing — in the legacy function-calling script (no
`function_call` key on the first response item) and in the
multiple-tools script (no `function_call`-typed item found by the
scan). -/
theorem c4_direct_answer :
    (∀ (oracle : Oracle) (jsonParse : String → Except String PyVal) (q : String)
        (es : List (String × PyVal)) (c : PyVal),
      oracle [userMsg q] = respOk [PyVal.dict es] →
      (PyVal.dict es).hasKey "function_call" = false →
      (PyVal.dict es).lookup "content" = some c →
      call_ai_with_functions oracle jsonParse q
        = ⟨[[userMsg q]], [], [], .answered c⟩) ∧
    (∀ (oracle : Oracle) (impl : LocalImpl) (q : String)
        (es : List (String × PyVal)) (c : PyVal),
      oracle [userMsg q] = respOk [PyVal.dict es] →
      (PyVal.dict es).lookup "type" = Option.none →
      (PyVal.dict es).lookup "role" = some (.str "assistant") →
      (PyVal.dict es).lookup "content" = some c →
      test_multiple_tools oracle impl q
        = ⟨[[userMsg q]], [], [], .directResponse (some c)⟩) := by
  constructor
  · intro oracle jsonParse q es c ho hkey hcontent
    have hlook : List.lookup "content" es = some c := hcontent
    have hkey2 : (PyVal.dict es).hasKey "function_call" = false := hkey
    simp [call_ai_with_functions, ho, respOk, PyVal.sub, PyVal.sub0, pyIn,
      hkey2, hlook, Bind.bind, Except.bind, pure, Except.pure]
  · intro oracle impl q es c ho htype hrole hcontent
    have htype2 : List.lookup "type" es = Option.none := htype
    have hrole2 : List.lookup "role" es = some (.str "assistant") := hrole
    have hlook : List.lookup "content" es = some c := hcontent
    simp [test_multiple_tools, ho, respOk, responseItems, pyIterList, PyVal.sub,
      scanItems, PyVal.pyGet, htype2, hrole2, hlook, PyVal.isStrEq,
      Bind.bind, Except.bind, pure, Except.pure, PyVal.lookup]

/-- C4 witness: a concrete text-only stub answers in one round for both
scripts. -/
theorem c4_direct_answer_witness :
    call_ai_with_functions textOracle noJsonParse "What color is the sky?"
      = ⟨[[userMsg "What color is the sky?"]], [], [],
         .answered (.str "The sky is blue.")⟩ ∧
    test_multiple_tools textOracle trivialImpl "What color is the sky?"
      = ⟨[[userMsg "What color is the sky?"]], [], [],
         .directResponse (some (.str "The sky is blue."))⟩ :=
  ⟨c4_direct_answer.1 textOracle noJsonParse "What color is the sky?"
      [("role", .str "assistant"), ("content", .str "The sky is blue.")]
      (.str "The sky is blue.") rfl rfl rfl,
   c4_direct_answer.2 textOracle trivialImpl "What color is the sky?"
      [("role", .str "assistant"), ("content", .str "The sky is blue.")]
      (.str "The sky is blue.") rfl rfl rfl rfl⟩

/-- C3 counterexample: the advanced-workflow loop, fed a function-call
item carrying two invocations, builds a function-result message with
exactly one result value — not one per invocation: its single recorded
round pairs a 2-invocation call with a 1-element result list. -/
theorem c3_counterexample :
    (advLoop twoCallOracle trivialImpl 1 (advInit "Schedule a meeting")).final.callRounds.map
      (fun p => ((p.1.pyLen).toOption, p.2.length)) = [(some 2, 1)] := rfl

/-- C3 (amended): the stock-analysis script answers a `k`-invocation
call with exactly `k` results in invocation order, but the
advanced-workflow loop executes only the first invocation and always
sends exactly one result value regardless of `k`. -/
theorem c3_results_arity :
    (∀ (oracle : Oracle) (impl : LocalImpl) (q : String),
      ∀ p ∈ (run_advanced_workflow oracle impl q).final.callRounds,
        p.2.length = 1) ∧
    (∀ (oracle : Oracle) (impl : LocalImpl) (q : String),
      ∀ p ∈ (analyze_stock_with_ai oracle impl q).callRounds,
        ∀ calls, p.1 = PyVal.list calls →
          p.2.length = calls.length ∧
          ∀ i (h1 : i < calls.length) (h2 : i < p.2.length),
            stockExecOne impl (calls.get ⟨i, h1⟩) = .ok (p.2.get ⟨i, h2⟩)) := by
  constructor
  · intro oracle impl q
    have h := advLoop_inv oracle impl max_steps (advInit q) rfl rfl
      (by intro t ht; cases ht) (by intro p hp; cases hp)
    exact h.2.2.2
  · exact analyze_stock_rounds

/-- C3 witness: the stock run executing one `get_stock_data` invocation
answers it with a one-element result list. -/
theorem c3_results_arity_witness :
    ((PyVal.list [mkCall "get_stock_data" (.dict [("symbol", .str "AAPL")])],
      [PyVal.dict [("available", .bool true)]]) : PyVal × List PyVal).2.length
      = [mkCall "get_stock_data" (.dict [("symbol", .str "AAPL")])].length :=
  (c3_results_arity.2 stockCallOracle trivialImpl "Analyze AAPL"
    (PyVal.list [mkCall "get_stock_data" (.dict [("symbol", .str "AAPL")])],
      [PyVal.dict [("available", .bool true)]])
    (show _ ∈ [(PyVal.list [mkCall "get_stock_data" (.dict [("symbol", .str "AAPL")])],
      [PyVal.dict [("available", .bool true)]])] from List.mem_singleton.mpr rfl)
    [mkCall "get_stock_data" (.dict [("symbol", .str "AAPL")])] rfl).1

/-- C5 counterexample: in the multiple-tools script an invocation of a
function absent from the dispatcher does not produce an
`UnknownFunction`-tagged result and does not let the run continue: the
script returns at once after the single request, dispatching nothing
and sending nothing back. -/
theorem c5_counterexample :
    test_multiple_tools bogusCallOracle trivialImpl "hi"
      = ⟨[[userMsg "hi"]], [], [], .unknownFunctionAbort (.str "bogus_function")⟩ := rfl

/-- C5 (amended): in the advanced workflow an unknown function name
yields the synthesized result `{"error": "Unknown function: <name>"}`,
which is sent back to the model, and the run continues; the
multiple-tools script instead prints an error and returns, aborting the
run without dispatching or replying. -/
theorem c5_unknown_function :
    (∀ (impl : LocalImpl) (name args : PyVal),
      name.isStrEq "check_calendar_availability" = false →
      name.isStrEq "create_calendar_event" = false →
      name.isStrEq "send_meeting_invitation" = false →
      name.isStrEq "create_follow_up_tasks" = false →
      name.isStrEq "log_workflow_completion" = false →
      execute_workflow_function impl name args
        = .dict [("error", .str ("Unknown function: " ++ pyStr name))]) ∧
    ((advLoop bogusCallOracle trivialImpl 2 (advInit "hi")).final.submitted
      = [[userMsg "hi"],
         [userMsg "hi",
          mkFnCallItem "call-9" [mkCall "bogus_function" (.dict [])],
          resultMsg (.str "call-9")
            [.dict [("error", .str "Unknown function: bogus_function")]]]] ∧
     (advLoop bogusCallOracle trivialImpl 2 (advInit "hi")).outcome
        = RunOutcome.maxStepsReached) ∧
    (test_multiple_tools bogusCallOracle trivialImpl "hi"
      = ⟨[[userMsg "hi"]], [], [], .unknownFunctionAbort (.str "bogus_function")⟩) := by
  refine ⟨?_, ⟨rfl, rfl⟩, rfl⟩
  intro impl name args h1 h2 h3 h4 h5
  simp [execute_workflow_function, h1, h2, h3, h4, h5]

/-- C5 witness: the unknown-name result dict for a concrete bogus
invocation. -/
theorem c5_unknown_function_witness :
    execute_workflow_function trivialImpl (.str "bogus_function") (.dict [])
      = .dict [("error", .str ("Unknown function: " ++ pyStr (.str "bogus_function")))] :=
  c5_unknown_function.1 trivialImpl (.str "bogus_function") (.dict [])
    rfl rfl rfl rfl rfl

/-- C6 counterexample: in the stock-analysis script a raised local
function is fatal to the whole run — the exception escapes the dispatch
loop into the top-level `except Exception`, no result value is built,
and no result message is sent (only the initial request went out). -/
theorem c6_counterexample :
    analyze_stock_with_ai stockCallOracle failImpl "Analyze AAPL"
      = ⟨[[userMsg "Analyze AAPL"]],
         [(.str "get_stock_data", .dict [("symbol", .str "AAPL")])],
         [], .unexpectedError "boom"⟩ := rfl

/-- C6 (amended): in the advanced workflow a raised local function is
captured as `{"error": "Function execution failed: <str(e)>"}`, sent
back as the invocation's result, and the loop continues; in the
stock-analysis script, which has no per-call handler, the same failure
aborts the run. -/
theorem c6_local_failure :
    (∀ (impl : LocalImpl) (args : PyVal) (e : String) (s : String),
      (s = "check_calendar_availability" ∨ s = "create_calendar_event"
        ∨ s = "send_meeting_invitation" ∨ s = "create_follow_up_tasks"
        ∨ s = "log_workflow_completion") →
      impl s args = .error e →
      execute_workflow_function impl (.str s) args
        = .dict [("error", .str ("Function execution failed: " ++ e))]) ∧
    ((advLoop alwaysCallOracle failImpl 2 (advInit "hi")).final.submitted
      = [[userMsg "hi"],
         [userMsg "hi",
          mkFnCallItem "call-1"
            [mkCall "check_calendar_availability" (.dict [("date", .str "2024-01-15")])],
          resultMsg (.str "call-1")
            [.dict [("error", .str "Function execution failed: boom")]]]] ∧
     (advLoop alwaysCallOracle failImpl 2 (advInit "hi")).outcome
        = RunOutcome.maxStepsReached) ∧
    (analyze_stock_with_ai stockCallOracle failImpl "Analyze AAPL"
      = ⟨[[userMsg "Analyze AAPL"]],
         [(.str "get_stock_data", .dict [("symbol", .str "AAPL")])],
         [], .unexpectedError "boom"⟩) := by
  refine ⟨?_, ⟨rfl, rfl⟩, rfl⟩
  intro impl args e s hs himpl
  rcases hs with rfl | rfl | rfl | rfl | rfl <;>
    simp [execute_workflow_function, PyVal.isStrEq, himpl]

/-- C6 witness: the captured-error dict for a concrete raising
dispatcher. -/
theorem c6_local_failure_witness :
    execute_workflow_function failImpl (.str "check_calendar_availability") (.dict [])
      = .dict [("error", .str ("Function execution failed: " ++ "boom"))] :=
  c6_local_failure.1 failImpl (.dict []) "boom" "check_calendar_availability"
    (Or.inl rfl) rfl

/-- C8 counterexample: after a transport failure on the very first
request the step counter reads 1, although zero dispatch rounds
completed — the counter is incremented before the request is attempted,
so the failed round does consume a step. -/
theorem c8_counterexample :
    (advLoop failTransportOracle trivialImpl 10 (advInit "hi")).final.stepCount = 1 ∧
    (advLoop failTransportOracle trivialImpl 10 (advInit "hi")).final.dispatched.length = 0 ∧
    (advLoop failTransportOracle trivialImpl 10 (advInit "hi")).final.stepCount
      ≠ (advLoop failTransportOracle trivialImpl 10 (advInit "hi")).final.dispatched.length :=
  ⟨rfl, rfl, by decide⟩

/-- C8 (amended): a transport failure aborts the loop immediately — the
failing attempt is the last request, with no retry — but the step
counter counts request attempts (it is incremented before each
attempt), so after an aborted run it equals the number of completed
dispatch rounds plus one, not that number itself. -/
theorem c8_transport_abort :
    (∀ (oracle : Oracle) (impl : LocalImpl) (b : Nat) (q : String),
      (advLoop oracle impl b (advInit q)).final.stepCount
        = (advLoop oracle impl b (advInit q)).final.submitted.length) ∧
    ((advLoop failTransportOracle trivialImpl 10 (advInit "hi")).final.submitted.length = 1 ∧
     (advLoop failTransportOracle trivialImpl 10 (advInit "hi")).outcome
        = RunOutcome.stepException "ConnectionError" ∧
     (advLoop failTransportOracle trivialImpl 10 (advInit "hi")).final.stepCount
        = (advLoop failTransportOracle trivialImpl 10 (advInit "hi")).final.dispatched.length
          + 1) := by
  refine ⟨?_, rfl, rfl, rfl⟩
  intro oracle impl b q
  have h := advLoop_inv oracle impl b (advInit q) rfl rfl
    (by intro t ht; cases ht) (by intro p hp; cases hp)
  exact h.2.1

/-- C9 counterexample: `parse_api_response` does not always return a
string — on the recognized shape
`{"result": {"response": [{"content": 42}]}}` it returns the content
value `42` itself, not a `str()` rendering. -/
theorem c9_counterexample :
    parse_api_response
        (.dict [("result", .dict [("response", .list [.dict [("content", .int 42)]])])])
      = .int 42 ∧
    (parse_api_response
        (.dict [("result", .dict [("response", .list [.dict [("content", .int 42)]])])])).isStr
      = false :=
  ⟨rfl, rfl⟩

/-- C9 (amended): `parse_api_response` is total and never raises; on a
recognized shape it returns the extracted content value as-is (of
whatever type), and on every other input it falls back to the `str()`
rendering of the innermost inspected component — the `result` value
when present, else the `response` value when present, else the whole
input. -/
theorem c9_parse_characterization : ∀ v : PyVal,
    parse_api_response v =
      (match recognizedContent v with
       | some c => c
       | Option.none => .str (pyStr (fallbackTarget v))) := by
  intro v
  cases v with
  | dict es =>
    cases hres : List.lookup "result" es with
    | some inner =>
      cases inner with
      | str s =>
        simp [parse_api_response, recognizedContent, fallbackTarget, PyVal.isDict,
          PyVal.isStr, PyVal.lookup, hasKey_eq_lookup_isSome, hres]
      | dict ies =>
        cases hlrr : List.lookup "response" ies with
        | none =>
          simp [parse_api_response, recognizedContent, fallbackTarget, firstContent,
            PyVal.isDict, PyVal.isStr, PyVal.lookup, hasKey_eq_lookup_isSome,
            hres, hlrr]
        | some arr =>
          cases arr with
          | list xs =>
            cases xs with
            | nil =>
              simp [parse_api_response, recognizedContent, fallbackTarget,
                firstContent, PyVal.isDict, PyVal.isStr, PyVal.lookup,
                hasKey_eq_lookup_isSome, hres, hlrr]
            | cons first rest =>
              cases first with
              | dict fes =>
                cases hfcl : List.lookup "content" fes with
                | some c0 =>
                  simp [parse_api_response, recognizedContent, fallbackTarget,
                    firstContent, PyVal.isDict, PyVal.isStr, PyVal.lookup,
                    hasKey_eq_lookup_isSome, hres, hlrr, hfcl]
                | none =>
                  simp [parse_api_response, recognizedContent, fallbackTarget,
                    firstContent, PyVal.isDict, PyVal.isStr, PyVal.lookup,
                    hasKey_eq_lookup_isSome, hres, hlrr, hfcl]
              | none =>
                simp [parse_api_response, recognizedContent, fallbackTarget,
                  firstContent, PyVal.isDict, PyVal.isStr, PyVal.lookup,
                  hasKey_eq_lookup_isSome, hres, hlrr]
              | bool b =>
                simp [parse_api_response, recognizedContent, fallbackTarget,
                  firstContent, PyVal.isDict, PyVal.isStr, PyVal.lookup,
                  hasKey_eq_lookup_isSome, hres, hlrr]
              | int n =>
                simp [parse_api_response, recognizedContent, fallbackTarget,
                  firstContent, PyVal.isDict, PyVal.isStr, PyVal.lookup,
                  hasKey_eq_lookup_isSome, hres, hlrr]
              | str s =>
                simp [parse_api_response, recognizedContent, fallbackTarget,
                  firstContent, PyVal.isDict, PyVal.isStr, PyVal.lookup,
                  hasKey_eq_lookup_isSome, hres, hlrr]
              | list ys =>
                simp [parse_api_response, recognizedContent, fallbackTarget,
                  firstContent, PyVal.isDict, PyVal.isStr, PyVal.lookup,
                  hasKey_eq_lookup_isSome, hres, hlrr]
          | none =>
            simp [parse_api_response, recognizedContent, fallbackTarget, firstContent,
              PyVal.isDict, PyVal.isStr, PyVal.lookup, hasKey_eq_lookup_isSome,
              hres, hlrr]
          | bool b =>
            simp [parse_api_response, recognizedContent, fallbackTarget, firstContent,
              PyVal.isDict, PyVal.isStr, PyVal.lookup, hasKey_eq_lookup_isSome,
              hres, hlrr]
          | int n =>
            simp [parse_api_response, recognizedContent, fallbackTarget, firstContent,
              PyVal.isDict, PyVal.isStr, PyVal.lookup, hasKey_eq_lookup_isSome,
              hres, hlrr]
          | str s =>
            simp [parse_api_response, recognizedContent, fallbackTarget, firstContent,
              PyVal.isDict, PyVal.isStr, PyVal.lookup, hasKey_eq_lookup_isSome,
              hres, hlrr]
          | dict ds =>
            simp [parse_api_response, recognizedContent, fallbackTarget, firstContent,
              PyVal.isDict, PyVal.isStr, PyVal.lookup, hasKey_eq_lookup_isSome,
              hres, hlrr]
      | none =>
        simp [parse_api_response, recognizedContent, fallbackTarget, PyVal.isDict,
          PyVal.isStr, PyVal.lookup, hasKey_eq_lookup_isSome, hres]
      | bool b =>
        simp [parse_api_response, recognizedContent, fallbackTarget, PyVal.isDict,
          PyVal.isStr, PyVal.lookup, hasKey_eq_lookup_isSome, hres]
      | int n =>
        simp [parse_api_response, recognizedContent, fallbackTarget, PyVal.isDict,
          PyVal.isStr, PyVal.lookup, hasKey_eq_lookup_isSome, hres]
      | list ys =>
        simp [parse_api_response, recognizedContent, fallbackTarget, PyVal.isDict,
          PyVal.isStr, PyVal.lookup, hasKey_eq_lookup_isSome, hres]
    | none =>
      cases hresp : List.lookup "response" es with
      | some arr =>
        cases arr with
        | list xs =>
          cases xs with
          | nil =>
            simp [parse_api_response, recognizedContent, fallbackTarget, firstContent,
              PyVal.isDict, PyVal.isStr, PyVal.lookup, hasKey_eq_lookup_isSome,
              hres, hresp]
          | cons first rest =>
            cases first with
            | dict fes =>
              cases hfcl : List.lookup "content" fes with
              | some c0 =>
                simp [parse_api_response, recognizedContent, fallbackTarget,
                  firstContent, PyVal.isDict, PyVal.isStr, PyVal.lookup,
                  hasKey_eq_lookup_isSome, hres, hresp, hfcl]
              | none =>
                simp [parse_api_response, recognizedContent, fallbackTarget,
                  firstContent, PyVal.isDict, PyVal.isStr, PyVal.lookup,
                  hasKey_eq_lookup_isSome, hres, hresp, hfcl]
            | none =>
              simp [parse_api_response, recognizedContent, fallbackTarget,
                firstContent, PyVal.isDict, PyVal.isStr, PyVal.lookup,
                hasKey_eq_lookup_isSome, hres, hresp]
            | bool b =>
              simp [parse_api_response, recognizedContent, fallbackTarget,
                firstContent, PyVal.isDict, PyVal.isStr, PyVal.lookup,
                hasKey_eq_lookup_isSome, hres, hresp]
            | int n =>
              simp [parse_api_response, recognizedContent, fallbackTarget,
                firstContent, PyVal.isDict, PyVal.isStr, PyVal.lookup,
                hasKey_eq_lookup_isSome, hres, hresp]
            | str s =>
              simp [parse_api_response, recognizedContent, fallbackTarget,
                firstContent, PyVal.isDict, PyVal.isStr, PyVal.lookup,
                hasKey_eq_lookup_isSome, hres, hresp]
            | list ys =>
              simp [parse_api_response, recognizedContent, fallbackTarget,
                firstContent, PyVal.isDict, PyVal.isStr, PyVal.lookup,
                hasKey_eq_lookup_isSome, hres, hresp]
        | none =>
          simp [parse_api_response, recognizedContent, fallbackTarget, firstContent,
            PyVal.isDict, PyVal.isStr, PyVal.lookup, hasKey_eq_lookup_isSome,
            hres, hresp]
        | bool b =>
          simp [parse_api_response, recognizedContent, fallbackTarget, firstContent,
            PyVal.isDict, PyVal.isStr, PyVal.lookup, hasKey_eq_lookup_isSome,
            hres, hresp]
        | int n =>
          simp [parse_api_response, recognizedContent, fallbackTarget, firstContent,
            PyVal.isDict, PyVal.isStr, PyVal.lookup, hasKey_eq_lookup_isSome,
            hres, hresp]
        | str s =>
          simp [parse_api_response, recognizedContent, fallbackTarget, firstContent,
            PyVal.isDict, PyVal.isStr, PyVal.lookup, hasKey_eq_lookup_isSome,
            hres, hresp]
        | dict ds =>
          simp [parse_api_response, recognizedContent, fallbackTarget, firstContent,
            PyVal.isDict, PyVal.isStr, PyVal.lookup, hasKey_eq_lookup_isSome,
            hres, hresp]
      | none =>
        simp [parse_api_response, recognizedContent, fallbackTarget, PyVal.isDict,
          PyVal.isStr, PyVal.lookup, hasKey_eq_lookup_isSome, hres, hresp]
  | none => simp [parse_api_response, recognizedContent, fallbackTarget, PyVal.isDict]
  | bool b => simp [parse_api_response, recognizedContent, fallbackTarget, PyVal.isDict]
  | int n => simp [parse_api_response, recognizedContent, fallbackTarget, PyVal.isDict]
  | str s => simp [parse_api_response, recognizedContent, fallbackTarget, PyVal.isDict]
  | list xs => simp [parse_api_response, recognizedContent, fallbackTarget, PyVal.isDict]

/-- C10 counterexample: in `get_streaming_response` the literal
`data: [DONE]` line — whose payload `[DONE]` is not valid JSON — is not
skipped: it terminates the stream, so a well-formed fragment after it
is dropped and removing the malformed line changes the output. -/
theorem c10_counterexample :
    get_streaming_response [SSELine.rawDone, fragLine "X"] = .ok "" ∧
    get_streaming_response [fragLine "X"] = .ok "X" :=
  ⟨rfl, rfl⟩

/-- C10 (amended): a line that does not start with `data: ` or whose
payload is not valid JSON is skipped and contributes nothing, with one
exception — in `get_streaming_response` the literal `data: [DONE]`
sentinel (also not valid JSON) terminates the stream; in
`streaming_chat_example` even that line is skipped.  So the assembled
output depends only on the well-formed payloads before the consumer's
sentinel. -/
theorem c10_malformed_skipped :
    (∀ (pre suffix : List SSELine) (acc s : String),
      streamLoop4 (pre ++ SSELine.noData s :: suffix) acc
        = streamLoop4 (pre ++ suffix) acc) ∧
    (∀ (pre suffix : List SSELine) (acc s : String),
      streamLoop4 (pre ++ SSELine.badJson s :: suffix) acc
        = streamLoop4 (pre ++ suffix) acc) ∧
    (∀ (pre suffix : List SSELine) (acc : String),
      streamLoop4 (pre ++ SSELine.blank :: suffix) acc
        = streamLoop4 (pre ++ suffix) acc) ∧
    (∀ (pre suffix : List SSELine) (acc : String),
      streamLoop4 (pre ++ SSELine.rawDone :: suffix) acc
        = streamLoop4 (pre ++ [SSELine.rawDone]) acc) ∧
    (∀ (pre suffix : List SSELine) (acc s : String),
      streamLoop2 (pre ++ SSELine.noData s :: suffix) acc
        = streamLoop2 (pre ++ suffix) acc) ∧
    (∀ (pre suffix : List SSELine) (acc s : String),
      streamLoop2 (pre ++ SSELine.badJson s :: suffix) acc
        = streamLoop2 (pre ++ suffix) acc) ∧
    (∀ (pre suffix : List SSELine) (acc : String),
      streamLoop2 (pre ++ SSELine.blank :: suffix) acc
        = streamLoop2 (pre ++ suffix) acc) ∧
    (∀ (pre suffix : List SSELine) (acc : String),
      streamLoop2 (pre ++ SSELine.rawDone :: suffix) acc
        = streamLoop2 (pre ++ suffix) acc) :=
  ⟨fun pre suffix acc _ => streamLoop4_congr_tail pre _ suffix acc (fun _ => rfl),
   fun pre suffix acc _ => streamLoop4_congr_tail pre _ suffix acc (fun _ => rfl),
   fun pre suffix acc => streamLoop4_congr_tail pre _ suffix acc (fun _ => rfl),
   fun pre _ acc => streamLoop4_congr_tail pre _ [SSELine.rawDone] acc (fun _ => rfl),
   fun pre suffix acc _ => streamLoop2_congr_tail pre _ suffix acc (fun _ => rfl),
   fun pre suffix acc _ => streamLoop2_congr_tail pre _ suffix acc (fun _ => rfl),
   fun pre suffix acc => streamLoop2_congr_tail pre _ suffix acc (fun _ => rfl),
   fun pre suffix acc => streamLoop2_congr_tail pre _ suffix acc (fun _ => rfl)⟩
